import Mathlib

/-!
# Verification of the TIC-AI Tab Assistant backend

A shallow embedding, in Lean 4, of the query-routing and tab-relevance logic
of the TIC-AI Tab Assistant backend, together with theorems settling the
specification claims about it.

Embedded components (each namespace mirrors one Python module):

* `TextUtils`   — `backend/utils/text_utils.py` (tokenize, overlap_score).
* `Classifier`  — `backend/agents/tab_classifier_agent.py` (detect_duplicates).
* `Server`      — `backend/agent_server.py` (detect_mode, rank_tabs,
                  cleanup_tabs, run_agent).
* `SimpleAgent` — `backend/agents/simple_agent.py` (process and its helpers).

Modelling conventions:

* Python `str` is Lean `String`; all string manipulation is implemented on the
  underlying character list so that concrete instances reduce in the kernel.
* Python `float` arithmetic on overlap scores is modelled over `ℝ` (the spec
  states exact real-number properties such as the `sqrt` formula and the
  range `[0,1]`); definitions touching real-valued scores are `noncomputable`
  and concrete instances are evaluated through simp lemmas instead.
* The external text-completion service (every `llm.invoke`, including calls
  bounded by `future.result(timeout=…)`) is an oracle parameter of type
  `Oracle := List (String × String) → Except String String`, taking the
  (role, content) message list; `.error` covers both timeouts and provider
  exceptions, which the source handles identically at every call site.
* A Python handler returning a `dict` with a varying set of keys is modelled
  by a structure whose fields are `Option`-wrapped: `none` means the key is
  absent from the returned dict.
-/

/-! ## Python-style string primitives (character-list based) -/

/-- Maximal runs of characters satisfying `p`; characters failing `p`
separate runs and are dropped.  `runsBy Char.isAlphanum` models
`re.findall(r"[A-Za-z0-9]+", ·)` and `runsBy (¬ isWhitespace ·)` models
`str.split()` with no argument. -/
def runsBy (p : Char → Bool) : List Char → List (List Char)
  | [] => []
  | c :: cs =>
    if p c then
      match runsBy p cs with
      | [] => [[c]]
      | g :: gs =>
        match cs with
        | [] => [[c]]
        | c' :: _ => if p c' then (c :: g) :: gs else [c] :: g :: gs
    else runsBy p cs

/-- Python `s.lower()` (ASCII case folding, as used by the source). -/
def pyLower (s : String) : String := String.mk (s.data.map Char.toLower)

/-- Python `needle in hay` on strings: substring containment. -/
def strContains (hay needle : String) : Bool :=
  hay.data.tails.any (fun t => needle.data.isPrefixOf t)

/-- Python `s.strip()`. -/
def pyStrip (s : String) : String :=
  String.mk (((s.data.dropWhile Char.isWhitespace).reverse.dropWhile
      Char.isWhitespace).reverse)

/-- Python `s[:n]` (by characters / code points). -/
def pyTake (n : Nat) (s : String) : String := String.mk (s.data.take n)

/-- Python `s.split()` — split on whitespace runs, dropping empties. -/
def pySplit (s : String) : List String :=
  (runsBy (fun c => !c.isWhitespace) s.data).map String.mk

/-- `" ".join(s.split())`, which also models
`re.sub(r"\s+", " ", s).strip()` (the two agree on every string). -/
def normWs (s : String) : String := String.intercalate " " (pySplit s)

/-- Python `s.split(c)` for a one-character separator: split at every
occurrence, keeping empty pieces (`"".split(c) == [""]`). -/
def splitCharList (c : Char) : List Char → List (List Char)
  | [] => [[]]
  | x :: xs =>
    if x = c then [] :: splitCharList c xs
    else
      match splitCharList c xs with
      | [] => [[x]]
      | g :: gs => (x :: g) :: gs

/-- Python `s.split(c)` on strings. -/
def pySplitChar (c : Char) (s : String) : List String :=
  (splitCharList c s.data).map String.mk

/-! ## `backend/utils/text_utils.py` -/

namespace TextUtils

/-- `tokenize(text)`: `[t.lower() for t in WORD_RE.findall(text or "")]`
with `WORD_RE = re.compile(r"[A-Za-z0-9]+")`. -/
def tokenize (text : String) : List String :=
  (runsBy Char.isAlphanum text.data).map (fun cs => String.mk (cs.map Char.toLower))

/-- `overlap_score(query_tokens, content_tokens)`:
returns `0.0` if either token list is empty, `0.0` again when the set
intersection is empty, and otherwise
`len(q_set & c_set) / math.sqrt(len(q_set) * len(c_set))`. -/
noncomputable def overlap_score (query_tokens content_tokens : List String) : ℝ :=
  if query_tokens = [] ∨ content_tokens = [] then 0
  else
    let q_set := query_tokens.toFinset
    let c_set := content_tokens.toFinset
    let intersection := (q_set ∩ c_set).card
    if intersection = 0 then 0
    else (intersection : ℝ) / Real.sqrt ((q_set.card : ℝ) * (c_set.card : ℝ))

/-- `make_tab_tokens(tab_title, tab_url, tab_text, max_chars=2000)`. -/
def make_tab_tokens (tab_title tab_url tab_text : String)
    (max_chars : Nat := 2000) : List String :=
  tokenize (tab_title ++ " " ++ tab_url ++ " " ++ pyTake max_chars tab_text)

theorem overlap_score_of_empty {A B : List String} (h : A = [] ∨ B = []) :
    overlap_score A B = 0 := by
  unfold overlap_score
  rw [if_pos h]

theorem overlap_score_formula {A B : List String} (hA : A ≠ []) (hB : B ≠ []) :
    overlap_score A B =
      ((A.toFinset ∩ B.toFinset).card : ℝ) /
        Real.sqrt ((A.toFinset.card : ℝ) * (B.toFinset.card : ℝ)) := by
  unfold overlap_score
  rw [if_neg (by simp [hA, hB])]
  by_cases h : (A.toFinset ∩ B.toFinset).card = 0
  · simp [h]
  · simp [h]

theorem toFinset_card_pos {A : List String} (hA : A ≠ []) :
    0 < A.toFinset.card := by
  rcases A with _ | ⟨a, as⟩
  · exact absurd rfl hA
  · exact Finset.card_pos.mpr ⟨a, by simp⟩

/-- The numerator is bounded by the geometric mean of the set sizes. -/
theorem inter_card_le_sqrt (A B : List String) :
    ((A.toFinset ∩ B.toFinset).card : ℝ) ≤
      Real.sqrt ((A.toFinset.card : ℝ) * (B.toFinset.card : ℝ)) := by
  have h1 : (A.toFinset ∩ B.toFinset).card ≤ A.toFinset.card :=
    Finset.card_le_card Finset.inter_subset_left
  have h2 : (A.toFinset ∩ B.toFinset).card ≤ B.toFinset.card :=
    Finset.card_le_card Finset.inter_subset_right
  have hsq : ((A.toFinset ∩ B.toFinset).card : ℝ) ^ 2 ≤
      (A.toFinset.card : ℝ) * (B.toFinset.card : ℝ) := by
    have := Nat.mul_le_mul h1 h2
    calc ((A.toFinset ∩ B.toFinset).card : ℝ) ^ 2
        = (((A.toFinset ∩ B.toFinset).card * (A.toFinset ∩ B.toFinset).card : ℕ) : ℝ) := by
          push_cast; ring
      _ ≤ ((A.toFinset.card * B.toFinset.card : ℕ) : ℝ) := by exact_mod_cast this
      _ = (A.toFinset.card : ℝ) * (B.toFinset.card : ℝ) := by push_cast; ring
  exact (Real.le_sqrt (by positivity) (by positivity)).mpr hsq

theorem overlap_score_nonneg (A B : List String) : 0 ≤ overlap_score A B := by
  by_cases h : A = [] ∨ B = []
  · rw [overlap_score_of_empty h]
  · push_neg at h
    rw [overlap_score_formula h.1 h.2]
    positivity

theorem overlap_score_le_one (A B : List String) : overlap_score A B ≤ 1 := by
  by_cases h : A = [] ∨ B = []
  · rw [overlap_score_of_empty h]; norm_num
  · push_neg at h
    rw [overlap_score_formula h.1 h.2]
    have hq := toFinset_card_pos h.1
    have hc := toFinset_card_pos h.2
    have hpos : 0 < Real.sqrt ((A.toFinset.card : ℝ) * (B.toFinset.card : ℝ)) := by
      apply Real.sqrt_pos.mpr
      have : (0 : ℝ) < (A.toFinset.card : ℝ) := by exact_mod_cast hq
      have : (0 : ℝ) < (B.toFinset.card : ℝ) := by exact_mod_cast hc
      positivity
    rw [div_le_one hpos]
    exact inter_card_le_sqrt A B

theorem overlap_score_comm (A B : List String) :
    overlap_score A B = overlap_score B A := by
  by_cases hA : A = []
  · rw [overlap_score_of_empty (Or.inl hA), overlap_score_of_empty (Or.inr hA)]
  · by_cases hB : B = []
    · rw [overlap_score_of_empty (Or.inr hB), overlap_score_of_empty (Or.inl hB)]
    · rw [overlap_score_formula hA hB, overlap_score_formula hB hA,
        Finset.inter_comm, mul_comm]

theorem overlap_score_self_sets {A B : List String}
    (hs : A.toFinset = B.toFinset) (hA : A ≠ []) : overlap_score A B = 1 := by
  have hB : B ≠ [] := by
    intro hBnil
    subst hBnil
    rcases A with _ | ⟨a, as⟩
    · exact hA rfl
    · have ha : a ∈ (a :: as).toFinset := by simp
      rw [hs] at ha
      simp at ha
  rw [overlap_score_formula hA hB, hs, Finset.inter_self]
  have hpos := toFinset_card_pos hB
  have hcardR : (0 : ℝ) < (B.toFinset.card : ℝ) := by exact_mod_cast hpos
  rw [Real.sqrt_mul_self (le_of_lt hcardR)]
  exact div_self (ne_of_gt hcardR)

theorem overlap_score_disjoint {A B : List String}
    (h : A.toFinset ∩ B.toFinset = ∅) : overlap_score A B = 0 := by
  by_cases hd : A = [] ∨ B = []
  · exact overlap_score_of_empty hd
  · push_neg at hd
    rw [overlap_score_formula hd.1 hd.2, h]
    simp

end TextUtils

/-- C3: `overlap_score(A,B)` is `0.0` when either token list is empty and
otherwise equals `|set(A) ∩ set(B)| / sqrt(|set(A)| * |set(B)|)`; it is
symmetric, always lies in `[0,1]`, equals `1.0` on equal non-empty sets and
`0.0` on disjoint sets. -/
theorem claim_C3_overlap_score (A B : List String) :
    (A = [] ∨ B = [] → TextUtils.overlap_score A B = 0) ∧
    (A ≠ [] → B ≠ [] →
      TextUtils.overlap_score A B =
        ((A.toFinset ∩ B.toFinset).card : ℝ) /
          Real.sqrt ((A.toFinset.card : ℝ) * (B.toFinset.card : ℝ))) ∧
    TextUtils.overlap_score A B = TextUtils.overlap_score B A ∧
    0 ≤ TextUtils.overlap_score A B ∧
    TextUtils.overlap_score A B ≤ 1 ∧
    (A.toFinset = B.toFinset → A ≠ [] → TextUtils.overlap_score A B = 1) ∧
    (A.toFinset ∩ B.toFinset = ∅ → TextUtils.overlap_score A B = 0) :=
  ⟨TextUtils.overlap_score_of_empty,
   TextUtils.overlap_score_formula,
   TextUtils.overlap_score_comm A B,
   TextUtils.overlap_score_nonneg A B,
   TextUtils.overlap_score_le_one A B,
   fun hs hA => TextUtils.overlap_score_self_sets hs hA,
   TextUtils.overlap_score_disjoint⟩

/-- Witness for C3 at concrete inputs: equal non-empty token sets score `1`,
and an empty side scores `0`. -/
theorem claim_C3_overlap_score_witness :
    TextUtils.overlap_score ["a", "b"] ["b", "a"] = 1 ∧
    TextUtils.overlap_score ["a"] [] = 0 :=
  ⟨(claim_C3_overlap_score ["a", "b"] ["b", "a"]).2.2.2.2.2.1 (by decide) (by decide),
   (claim_C3_overlap_score ["a"] []).1 (Or.inr rfl)⟩

/-! ## `backend/agents/tab_classifier_agent.py` — duplicate detection -/

namespace Classifier

/-- A browser-tab snapshot as the agents receive it: a Python dict whose
fields are read with `tab.get(key, default)`.  `id`, `price` and
`productName` model keys that may be absent (`None`). -/
structure Tab where
  id : Option Int := none
  title : String := ""
  url : String := ""
  text : String := ""
  price : Option ℚ := none
  productName : Option String := none

/-- `tab.get("url", "").split("?")[0]` — the URL with its query string
stripped. -/
def stripQuery (url : String) : String := (pySplitChar '?' url).headD ""

/-- The pairwise merge criterion of `detect_duplicates`:
`url1 == url2 or (title1 == title2 and len(title1) > 10)` on the
query-stripped URLs and lower-cased titles. -/
def tabsMatch (t1 t2 : Tab) : Bool :=
  stripQuery t1.url == stripQuery t2.url ||
    (pyLower t1.title == pyLower t2.title && decide ((pyLower t1.title).length > 10))

/-- The anchor loop of `detect_duplicates`: `anchors` is the list of indices
still to visit (initially `range len(tabs)`, so at anchor `i` its tail is
exactly `range(i+1, len(tabs))`), `processed` the set of indices already
claimed by an emitted group.  During one anchor's inner scan the source adds
each matched `j` to `processed` immediately, but those additions are only
re-tested at strictly larger `j`, so filtering against the pre-scan
`processed` is equivalent. -/
def dupLoop (tabs : List Tab) : List Nat → List Nat → List (List Nat)
  | [], _ => []
  | i :: rest, processed =>
    if processed.contains i then dupLoop tabs rest processed
    else
      let t1 := tabs.getD i {}
      let js := rest.filter
        (fun j => !(processed.contains j) && tabsMatch t1 (tabs.getD j {}))
      if js.isEmpty then dupLoop tabs rest processed
      else (i :: js) :: dupLoop tabs rest (processed ++ i :: js)

/-- `TabClassifierAgent.detect_duplicates(tabs)`: greedy O(n²) grouping. -/
def detect_duplicates (tabs : List Tab) : List (List Nat) :=
  dupLoop tabs (List.range tabs.length) []

/-- Once every remaining anchor is already processed, the loop emits
nothing. -/
theorem dupLoop_all_processed (tabs : List Tab) :
    ∀ anchors processed : List Nat,
      (∀ i ∈ anchors, processed.contains i = true) →
      dupLoop tabs anchors processed = [] := by
  intro anchors
  induction anchors with
  | nil => intro processed _; rfl
  | cons i rest ih =>
    intro processed h
    rw [dupLoop, if_pos (h i (by simp))]
    exact ih processed (fun j hj => h j (by simp [hj]))

/-- Two tabs whose `url` fields are both empty satisfy the merge criterion
whatever their titles: both query-stripped URLs are `""`. -/
theorem tabsMatch_empty_urls (t1 t2 : Tab) (h1 : t1.url = "") (h2 : t2.url = "") :
    tabsMatch t1 t2 = true := by
  unfold tabsMatch stripQuery
  rw [h1, h2]
  rfl

end Classifier

/-- Every tab stored in a list of url-less tabs is url-less, including the
`getD` default reads used by `dupLoop`. -/
theorem getD_url_empty {tabs : List Classifier.Tab}
    (hurl : ∀ t ∈ tabs, t.url = "") {j : Nat} (hj : j < tabs.length) :
    (tabs.getD j {}).url = "" := by
  rw [List.getD_eq_getElem tabs {} hj]
  exact hurl _ (List.getElem_mem hj)

/-- C5, counterexample to the claim as stated: on the three tabs below,
`detect_duplicates` puts tabs 1 and 2 into one group (both match the
anchor tab 0 — tab 1 by stripped URL, tab 2 by long title), yet tabs 1 and
2 themselves satisfy neither half of the stated merge criterion, so the
"exactly when" characterisation fails. -/
theorem claim_C5_counterexample :
    Classifier.detect_duplicates
      [{ title := "Alpha Beta Gamma One", url := "https://a.com/x" },
       { title := "Different Title Here", url := "https://a.com/x?r=1" },
       { title := "alpha beta gamma one", url := "https://b.com/y" }] = [[0, 1, 2]] ∧
    Classifier.tabsMatch
      { title := "Different Title Here", url := "https://a.com/x?r=1" }
      { title := "alpha beta gamma one", url := "https://b.com/y" } = false := by
  constructor
  · decide
  · decide

/-- C5 (amended): a tab joins a group exactly when it matches the group's
first-seen (anchor) tab — equal query-stripped URLs, or equal lower-cased
titles of length `> 10`.  For two-tab lists this is precisely the stated
pairwise criterion, and the three concrete examples of the claim hold
(the short-title pair is given distinct URLs, since equal — e.g. both
empty — URLs would merge any pair). -/
theorem claim_C5_amended :
    (∀ t1 t2 : Classifier.Tab,
      Classifier.detect_duplicates [t1, t2] =
        if Classifier.tabsMatch t1 t2 then [[0, 1]] else []) ∧
    Classifier.detect_duplicates
      [{ url := "https://a.com/x?ref=1" }, { url := "https://a.com/x?ref=2" }]
      = [[0, 1]] ∧
    Classifier.detect_duplicates
      [{ title := "Hi", url := "https://a.com/1" },
       { title := "Hi", url := "https://a.com/2" }] = [] ∧
    Classifier.detect_duplicates
      [{ title := "Introduction to Quantum Computing", url := "https://a.com/1" },
       { title := "Introduction to Quantum Computing", url := "https://a.com/2" }]
      = [[0, 1]] := by
  refine ⟨fun t1 t2 => ?_, by decide, by decide, by decide⟩
  cases h : Classifier.tabsMatch t1 t2 <;>
    simp [Classifier.detect_duplicates, Classifier.dupLoop, h, List.range]

/-- C10, counterexample to the claim as stated: tabs 1 and 2 both have an
empty `url`, but tab 1 is captured by tab 0's title match first, so the two
url-less tabs do **not** end up in one group (`detect_duplicates` returns
the single group `[0, 1]`, leaving tab 2 ungrouped). -/
theorem claim_C10_counterexample :
    Classifier.detect_duplicates
      [{ url := "https://x.com/a", title := "Long Title Here Yes" },
       { url := "", title := "long title here yes" },
       { url := "", title := "zzz" }] = [[0, 1]] ∧
    ({ url := "", title := "long title here yes" } : Classifier.Tab).url = "" ∧
    ({ url := "", title := "zzz" } : Classifier.Tab).url = "" := by
  refine ⟨by decide, rfl, rfl⟩

/-- C10 (amended): the URL comparison has no non-emptiness guard, so any two
tabs with empty `url` fields satisfy the merge criterion regardless of their
titles, and a tab list consisting solely of url-less tabs (with at least two
tabs) collapses into the single group of all indices; in a mixed list,
however, a url-less tab can first be captured by an earlier tab's title
match and then belongs to that group instead. -/
theorem claim_C10_amended :
    (∀ t1 t2 : Classifier.Tab, t1.url = "" → t2.url = "" →
      Classifier.tabsMatch t1 t2 = true) ∧
    (∀ tabs : List Classifier.Tab, (∀ t ∈ tabs, t.url = "") →
      2 ≤ tabs.length →
      Classifier.detect_duplicates tabs = [List.range tabs.length]) := by
  refine ⟨Classifier.tabsMatch_empty_urls, fun tabs hurl hlen => ?_⟩
  obtain ⟨m, hm⟩ : ∃ m, tabs.length = m + 2 := ⟨tabs.length - 2, by omega⟩
  unfold Classifier.detect_duplicates
  rw [hm]
  rw [List.range_succ_eq_map]
  rw [Classifier.dupLoop]
  have h0 : (0 : Nat) < tabs.length := by omega
  have hjlt : ∀ j ∈ List.map Nat.succ (List.range (m + 1)), j < tabs.length := by
    intro j hj
    simp only [List.mem_map, List.mem_range] at hj
    obtain ⟨k, hk, rfl⟩ := hj
    omega
  have hpred :
      (fun j => !(List.contains ([] : List Nat) j) &&
        Classifier.tabsMatch (tabs.getD 0 {}) (tabs.getD j {}))
      = (fun j => Classifier.tabsMatch (tabs.getD 0 {}) (tabs.getD j {})) := by
    funext j
    rfl
  have hfilter :
      (List.map Nat.succ (List.range (m + 1))).filter
        (fun j => Classifier.tabsMatch (tabs.getD 0 {}) (tabs.getD j {}))
      = List.map Nat.succ (List.range (m + 1)) := by
    apply List.filter_eq_self.mpr
    intro j hj
    exact Classifier.tabsMatch_empty_urls _ _ (getD_url_empty hurl h0)
      (getD_url_empty hurl (hjlt j hj))
  have hc0 : List.contains ([] : List Nat) 0 = false := rfl
  rw [hc0]
  simp only [Bool.false_eq_true, if_false, hpred, hfilter]
  have hne : (List.map Nat.succ (List.range (m + 1))).isEmpty = false := by
    rw [List.range_succ_eq_map]
    rfl
  rw [hne]
  simp only [Bool.false_eq_true, if_false, List.nil_append]
  rw [Classifier.dupLoop_all_processed tabs _ _ (by
    intro i hi
    simpa using List.mem_cons_of_mem 0 hi)]

/-- Witness for C10 (amended) at a concrete input: two tabs with empty URLs
and unrelated short titles collapse into the single group `[0, 1]`. -/
theorem claim_C10_amended_witness :
    Classifier.tabsMatch { title := "aa", url := "" } { title := "bb", url := "" } = true ∧
    Classifier.detect_duplicates
      [{ title := "aa", url := "" }, { title := "bb", url := "" }]
      = [List.range 2] :=
  ⟨claim_C10_amended.1 _ _ rfl rfl,
   claim_C10_amended.2 _ (by decide) (by decide)⟩

/-! ## Further string primitives used by `agent_server.py` -/

/-- Python `s.startswith(pre)`. -/
def strStartsWith (s pre : String) : Bool := pre.data.isPrefixOf s.data

/-- Python `s.splitlines()` for `\n`-terminated text: split at every newline
and drop the trailing empty piece produced by a final newline
(`"".splitlines() == []`).  Only `\n` terminators are modelled; the source
never feeds other line terminators. -/
def pyLines (s : String) : List String :=
  if s.data = [] then []
  else
    let parts := splitCharList '\n' s.data
    (if parts.getLast? = some [] then parts.dropLast else parts).map String.mk

/-- Python `s.split(":", 1)[1]`: everything after the first colon (used only
on lines guaranteed to contain one). -/
def afterFirstColon (s : String) : String :=
  String.mk ((s.data.dropWhile (fun c => c ≠ ':')).drop 1)

/-- Nonempty-left-part lemma for string append. -/
theorem str_append_ne_empty_left (a b : String) (h : a ≠ "") : a ++ b ≠ "" := by
  intro he
  apply h
  have h2 := congrArg String.data he
  rw [String.data_append] at h2
  have := (List.append_eq_nil.mp h2).1
  cases a
  simp_all

/-- The external text-completion service: one call takes the chat messages
as (role, content) pairs and either returns the completion text or fails;
`.error` models both provider exceptions and elapsed `future.result` /
request timeouts, which every call site of the source handles identically. -/
abbrev Oracle := List (String × String) → Except String String

/-- A completion service that always fails (raises / times out). -/
def errOracle : Oracle := fun _ => .error "boom"

/-- A completion service that always succeeds with the empty string. -/
def emptyOkOracle : Oracle := fun _ => .ok ""

/-! ## `backend/agent_server.py` -/

namespace Server

/-- The `TabInput` pydantic model: `id` is required, the rest default to
`""`.  Its `coerce_text` validator whitespace-normalises `text` at parse
time; `run_agent` below applies it to its input. -/
structure TabInput where
  id : Int
  title : String := ""
  url : String := ""
  text : String := ""

/-- `AgentReply`: the response model of `POST /run_agent` — note it carries
only these four fields. -/
structure AgentReply where
  reply : String
  mode : String
  chosen_tab_id : Option Int := none
  suggested_close_tab_ids : List Int := []

/-- `llm_complete(system, user, max_chars=4000)`: truncates the user
message, invokes the model, returns the content (`or ""` keeps a plain
string) and on any exception returns the fixed apology line. -/
def llm_complete (llm : Oracle) (system user : String) (max_chars : Nat := 4000) : String :=
  match llm [("system", system), ("human", pyTake max_chars user)] with
  | .ok content => content
  | .error _ => "Error: language model unavailable. Please try again."

/-- `toks(s)` — identical to `TextUtils.tokenize` (the module duplicates
it). -/
def toks (s : String) : List String := TextUtils.tokenize s

/-- The server's copy of `overlap_score` (no early zero-intersection
return, otherwise the same formula). -/
noncomputable def overlap_score (q_tokens c_tokens : List String) : ℝ :=
  if q_tokens = [] ∨ c_tokens = [] then 0
  else
    let q := q_tokens.toFinset
    let c := c_tokens.toFinset
    ((q ∩ c).card : ℝ) / Real.sqrt ((q.card : ℝ) * (c.card : ℝ))

/-- `make_tab_tokens(tab)`: `f"{tab.title} {tab.url} " + (tab.text or "")[:2000]`
tokenized. -/
def make_tab_tokens (tab : TabInput) : List String :=
  toks (tab.title ++ " " ++ tab.url ++ " " ++ pyTake 2000 tab.text)

def multi_markers : List String :=
  ["compare", "versus", "vs", "difference",
   "which is better", "which one is better", "pros and cons",
   "rank", "top", "best among", "side by side"]

def cleanup_markers : List String :=
  ["close others", "close remaining", "keep only", "show me only",
   "focus on", "filter to", "hide the rest", "remove other"]

def single_markers : List String :=
  ["who are", "what is", "when did", "how many", "explain", "summarize",
   "details on", "members of", "specs of", "price of", "definition of"]

/-- `detect_mode(query)`: ordered marker-list tests with `"single"` as the
default. -/
def detect_mode (query : String) : String :=
  let q := pyLower query
  if multi_markers.any (fun m => strContains q m) then "multi"
  else if cleanup_markers.any (fun m => strContains q m) then "cleanup"
  else if single_markers.any (fun m => strContains q m) || strContains q "which tab"
      || strContains q "find the tab" then "single"
  else "single"

/-- `rank_tabs(query, tabs, top_k=6)`: score every tab, sort descending by
score (Python's stable sort = `mergeSort` with `le a b := b.2 ≤ a.2`), keep
the positive-score hits truncated to `top_k`, and if there are none fall
back to `scored[:min(top_k, len(scored))]` of the sorted list. -/
noncomputable def rank_tabs (query : String) (tabs : List TabInput)
    (top_k : Nat := 6) : List (TabInput × ℝ) :=
  let q_tokens := toks query
  let scored := tabs.map (fun t => (t, overlap_score q_tokens (make_tab_tokens t)))
  let sorted := scored.mergeSort (fun a b => decide (b.2 ≤ a.2))
  let nz := sorted.filter (fun x => decide (0 < x.2))
  if nz.isEmpty then sorted.take (min top_k sorted.length) else nz.take top_k

/-- `summarize_tab_content(tab, query)`. -/
def summarize_tab_content (llm : Oracle) (tab : TabInput) (query : String) : String :=
  let system :=
    "You are TIC-AI, a tab-local assistant. Answer ONLY using the provided tab excerpt. " ++
    "If the excerpt lacks the answer, say what’s missing concisely. " ++
    "Respond in clean, compact Markdown (no external sources; no speculation)."
  let user :=
    "User question: " ++ query ++ "\n\n" ++
    "Tab title: " ++ tab.title ++ "\nTab URL: " ++ tab.url ++ "\n\n" ++
    "Visible text (truncated):\n" ++ pyTake 8000 tab.text
  llm_complete llm system user

/-- First `Recommendation:` line of the reply, with the part after the
colon stripped (`None` when no such line exists). -/
def findRecommendation (reply : String) : Option String :=
  (pyLines reply).findSome? fun line =>
    if strStartsWith (pyLower line) "recommendation:" then
      some (pyStrip (afterFirstColon line))
    else none

/-- The final fallback loop of `compare_tabs`: first tab whose title's first
word occurs in the lower-cased reply.  A whitespace-only but non-empty title
makes `t.title.lower().split()[0]` raise an `IndexError`, which propagates
(modelled as `.error`). -/
def firstTokenHeuristic (reply_lower : String) :
    List TabInput → Except String (Option TabInput)
  | [] => .ok none
  | t :: ts =>
    if t.title = "" then firstTokenHeuristic reply_lower ts
    else
      match pySplit (pyLower t.title) with
      | [] => .error "IndexError: list index out of range"
      | tok :: _ =>
        if strContains reply_lower tok then .ok (some t)
        else firstTokenHeuristic reply_lower ts

/-- `compare_tabs(query, tabs)`: re-rank, join the tab texts, make one
unprotected `LLM.invoke` call (its exceptions propagate to `run_agent`'s
top-level handler, hence the `Except` return), then parse the
recommendation line to pick a tab. -/
noncomputable def compare_tabs (llm : Oracle) (query : String)
    (tabs : List TabInput) : Except String (String × Option Int) :=
  let ranked := rank_tabs query tabs
  let rel_tabs := ranked.map Prod.fst
  if rel_tabs.isEmpty then .ok ("No relevant tabs found for comparison.", none)
  else
    let sys_prompt :=
      "You are TIC-AI, a tab comparison assistant. Compare the following open tabs " ++
      "**strictly using their provided text**. Create a clean Markdown table using | separators " ++
      "with proper headers and aligned columns. After the table, write a short summary " ++
      "and end with an explicit line like: \x27Recommendation: <exact tab title>\x27."
    let joined := String.intercalate "\n\n"
      (rel_tabs.map fun t =>
        "---\nTitle: " ++ t.title ++ "\nURL: " ++ t.url ++ "\nText:\n" ++ pyTake 3000 t.text)
    match llm [("human", sys_prompt ++ "\n\nUser Query: " ++ query ++ "\n\n" ++ joined)] with
    | .error e => .error e
    | .ok reply =>
      let chosen1 : Option TabInput :=
        match findRecommendation reply with
        | none => none
        | some rec_title =>
          if rec_title = "" then none
          else
            let lt := pyLower rec_title
            match rel_tabs.find? (fun t =>
                pyLower t.title == lt || strContains (pyLower t.title) lt) with
            | some t => some t
            | none =>
              match (pySplit lt).head? with
              | none => none
              | some first_tok => rel_tabs.find? (fun t => strContains (pyLower t.title) first_tok)
      match chosen1 with
      | some t => .ok (reply, some t.id)
      | none =>
        match firstTokenHeuristic (pyLower reply) rel_tabs with
        | .error e => .error e
        | .ok chosen2 =>
          let chosen_id :=
            match chosen2 with
            | some t => some t.id
            | none => (rel_tabs.head?.map TabInput.id)
          .ok (reply, chosen_id)

/-- `cleanup_tabs(query, tabs)`: keep the positive-score tabs (or the single
top-ranked tab if every score is zero); every other tab id is listed for
closing.  Python's `match_ids` set is modelled by list membership over the
same ids. -/
noncomputable def cleanup_tabs (query : String) (tabs : List TabInput) :
    List TabInput × List Int :=
  match rank_tabs query tabs tabs.length with
  | [] => ([], [])
  | r0 :: rest =>
    let ranked := r0 :: rest
    let pos := (ranked.filter (fun x => decide (0 < x.2))).map Prod.fst
    let matched := if pos.isEmpty then [r0.1] else pos
    let match_ids := matched.map TabInput.id
    let to_close := (tabs.filter (fun t => !(match_ids.contains t.id))).map TabInput.id
    (matched, to_close)

/-- `run_agent(payload)`: the `POST /run_agent` entry point.  The pydantic
text validator is applied to the incoming tabs, then the mode dispatch of
the source.  The top-level `try/except` can only be reached through the
unprotected `LLM.invoke` inside `compare_tabs`; every other step is pure or
already guarded, so the `.error` branch of `compare_tabs` is exactly the
source's exception path (reply `f"Error: {e}"`, mode `"single"`). -/
noncomputable def run_agent (llm : Oracle) (query0 : String)
    (tabs0 : List TabInput) : AgentReply :=
  let tabs := tabs0.map fun t => { t with text := normWs t.text }
  let query := pyStrip query0
  if query = "" then
    { reply := "Please enter a non-empty query.", mode := "single" }
  else if tabs.isEmpty then
    { reply := "No tabs were provided by the extension. Open some pages and try again.",
      mode := "single" }
  else
    let mode := detect_mode query
    if mode = "single" then
      match rank_tabs query tabs 3 with
      | [] => { reply := "I couldn’t match your question to any open tab.", mode := "single" }
      | (top_tab, _) :: _ =>
        { reply := summarize_tab_content llm top_tab query,
          mode := "single", chosen_tab_id := some top_tab.id }
    else if mode = "multi" then
      match rank_tabs query tabs 6 with
      | [] => { reply := "I couldn’t find multiple relevant tabs to compare.", mode := "multi" }
      | r0 :: rest =>
        let relevant_tabs := (r0 :: rest).map Prod.fst
        match compare_tabs llm query relevant_tabs with
        | .error e => { reply := "Error: " ++ e, mode := "single" }
        | .ok (reply_text, chosen_id) =>
          { reply := reply_text, mode := "multi",
            chosen_tab_id := some (chosen_id.getD r0.1.id) }
    else if mode = "cleanup" then
      match cleanup_tabs query tabs with
      | ([], _) => { reply := "I couldn’t find a set of tabs that match your filter.",
                     mode := "cleanup" }
      | (chosen :: kept_rest, to_close) =>
        let kept_tabs := chosen :: kept_rest
        let summary := summarize_tab_content llm chosen
          ("Summarize how this tab relates to: " ++ query)
        { reply :=
            "**Focus tabs (" ++ toString kept_tabs.length ++
            " match)** — I’ll keep these open and suggest closing the rest.\n\n" ++
            "**Primary tab to focus:** [" ++ chosen.title ++ "](" ++ chosen.url ++ ")\n\n" ++
            summary ++ "\n\n" ++
            "_You will be prompted to confirm closing " ++ toString to_close.length ++
            " unrelated tab(s) in the extension UI._",
          mode := "cleanup", chosen_tab_id := some chosen.id,
          suggested_close_tab_ids := to_close }
    else
      match rank_tabs query tabs 1 with
      | [] => { reply := "No relevant tab found.", mode := "single" }
      | (chosen, _) :: _ =>
        { reply := summarize_tab_content llm chosen query,
          mode := "single", chosen_tab_id := some chosen.id }

end Server

/-! ### Lemmas about the server's scorer and ranker -/

theorem server_overlap_score_disjoint {A B : List String}
    (h : A.toFinset ∩ B.toFinset = ∅) : Server.overlap_score A B = 0 := by
  unfold Server.overlap_score
  by_cases hd : A = [] ∨ B = []
  · rw [if_pos hd]
  · rw [if_neg hd]
    simp [h]

theorem rank_tabs_ne_nil (query : String) (tabs : List Server.TabInput) (k : Nat)
    (ht : tabs ≠ []) (hk : 0 < k) : Server.rank_tabs query tabs k ≠ [] := by
  simp only [Server.rank_tabs]
  set scored := tabs.map
    (fun t => (t, Server.overlap_score (Server.toks query) (Server.make_tab_tokens t)))
    with hscored
  set sorted := scored.mergeSort (fun a b => decide (b.2 ≤ a.2)) with hsorted
  have hslen : sorted.length = tabs.length := by
    rw [hsorted, List.length_mergeSort, hscored, List.length_map]
  have hsne : sorted ≠ [] := by
    intro h
    apply ht
    have h2 := congrArg List.length h
    rw [hslen] at h2
    exact List.length_eq_zero.mp h2
  have htl : 0 < tabs.length := List.length_pos.mpr ht
  split
  · intro h
    rw [List.take_eq_nil_iff] at h
    rcases h with h | h
    · rw [hslen] at h
      omega
    · exact hsne h
  · next hne =>
    intro h
    rw [List.take_eq_nil_iff] at h
    rcases h with h | h
    · omega
    · rw [h] at hne
      simp at hne

theorem rank_tabs_length_all_zero (query : String) (tabs : List Server.TabInput)
    (k : Nat)
    (h0 : ∀ t ∈ tabs,
      Server.overlap_score (Server.toks query) (Server.make_tab_tokens t) = 0) :
    (Server.rank_tabs query tabs k).length = min k tabs.length := by
  simp only [Server.rank_tabs]
  set scored := tabs.map
    (fun t => (t, Server.overlap_score (Server.toks query) (Server.make_tab_tokens t)))
    with hscored
  set sorted := scored.mergeSort (fun a b => decide (b.2 ≤ a.2)) with hsorted
  have hslen : sorted.length = tabs.length := by
    rw [hsorted, List.length_mergeSort, hscored, List.length_map]
  have hfil : sorted.filter (fun x => decide (0 < x.2)) = [] := by
    rw [List.filter_eq_nil_iff]
    intro a ha
    rw [hsorted, List.mem_mergeSort, hscored, List.mem_map] at ha
    obtain ⟨t, htm, rfl⟩ := ha
    show ¬(decide (0 < Server.overlap_score (Server.toks query)
      (Server.make_tab_tokens t)) = true)
    rw [h0 t htm, decide_eq_true_eq]
    exact lt_irrefl 0
  rw [hfil]
  rw [if_pos List.isEmpty_nil]
  rw [List.length_take, hslen]
  omega

/-- C4: for a non-empty tab list (and the positive `top_k` every call site
passes — the default is 6), `rank_tabs` never returns an empty sequence, and
when every tab scores zero it returns exactly `min(top_k, len(tabs))`
entries of the (all-zero) sorted scored list rather than nothing. -/
theorem claim_C4_rank_tabs_nonempty (query : String) (tabs : List Server.TabInput)
    (top_k : Nat) (ht : tabs ≠ []) (hk : 0 < top_k) :
    Server.rank_tabs query tabs top_k ≠ [] ∧
    ((∀ t ∈ tabs,
        Server.overlap_score (Server.toks query) (Server.make_tab_tokens t) = 0) →
      (Server.rank_tabs query tabs top_k).length = min top_k tabs.length) :=
  ⟨rank_tabs_ne_nil query tabs top_k ht hk,
   fun h0 => rank_tabs_length_all_zero query tabs top_k h0⟩

/-- Witness for C4: a single tab disjoint from the query still gets
returned (with the default `top_k = 6`), and the all-zero case returns
`min 6 1 = 1` entry. -/
theorem claim_C4_rank_tabs_nonempty_witness :
    Server.rank_tabs "what is zzz" [{ id := 1, title := "aaa" }] 6 ≠ [] ∧
    (Server.rank_tabs "what is zzz" [{ id := 1, title := "aaa" }] 6).length = 1 := by
  have h := claim_C4_rank_tabs_nonempty "what is zzz" [{ id := 1, title := "aaa" }] 6
    (List.cons_ne_nil _ _) (by decide)
  refine ⟨h.1, ?_⟩
  have h2 := h.2 (by
    intro t htm
    rw [List.mem_singleton] at htm
    subst htm
    exact server_overlap_score_disjoint (by decide))
  simpa using h2

theorem detect_mode_cases (q : String) :
    Server.detect_mode q = "single" ∨ Server.detect_mode q = "multi" ∨
      Server.detect_mode q = "cleanup" := by
  simp only [Server.detect_mode]
  split_ifs <;> simp

theorem cleanup_tabs_fst_ne_nil (query : String) (tabs : List Server.TabInput)
    (ht : tabs ≠ []) : (Server.cleanup_tabs query tabs).1 ≠ [] := by
  have hrne := rank_tabs_ne_nil query tabs tabs.length ht (List.length_pos.mpr ht)
  rcases hr : Server.rank_tabs query tabs tabs.length with _ | ⟨r0, rest⟩
  · exact absurd hr hrne
  · simp only [Server.cleanup_tabs, hr]
    split
    · simp
    · next hne =>
      intro hnil
      rw [hnil] at hne
      simp at hne

theorem cleanup_tabs_mem_not_closed (query : String) (tabs : List Server.TabInput)
    (t : Server.TabInput) (hmem : t ∈ (Server.cleanup_tabs query tabs).1) :
    t.id ∉ (Server.cleanup_tabs query tabs).2 := by
  rcases hr : Server.rank_tabs query tabs tabs.length with _ | ⟨r0, rest⟩
  · rw [Server.cleanup_tabs] at hmem ⊢
    rw [hr] at hmem ⊢
    simp at hmem
  · rw [Server.cleanup_tabs] at hmem ⊢
    rw [hr] at hmem ⊢
    intro hclose
    rw [List.mem_map] at hclose
    obtain ⟨u, hu, hui⟩ := hclose
    rw [List.mem_filter] at hu
    have hufalse := hu.2
    rw [Bool.not_eq_true'] at hufalse
    have htid : (((if (List.filter (fun x => decide (0 < x.2)) (r0 :: rest)).map
        Prod.fst |>.isEmpty then [r0.1]
        else (List.filter (fun x => decide (0 < x.2)) (r0 :: rest)).map Prod.fst)).map
        Server.TabInput.id).contains t.id = true := by
      have hmem2 := List.mem_map_of_mem Server.TabInput.id hmem
      simpa using hmem2
    rw [hui] at hufalse
    rw [htid] at hufalse
    cases hufalse

theorem rank_tabs_single_zero (query : String) (t : Server.TabInput) (k : Nat)
    (hk : 0 < k)
    (h0 : Server.overlap_score (Server.toks query) (Server.make_tab_tokens t) = 0) :
    Server.rank_tabs query [t] k =
      [(t, Server.overlap_score (Server.toks query) (Server.make_tab_tokens t))] := by
  simp only [Server.rank_tabs, List.map_cons, List.map_nil, List.mergeSort_singleton]
  have hfil : [(t, Server.overlap_score (Server.toks query)
      (Server.make_tab_tokens t))].filter (fun x => decide (0 < x.2)) = [] := by
    rw [List.filter_eq_nil_iff]
    intro a ha
    rw [List.mem_singleton] at ha
    subst ha
    show ¬(decide (0 < Server.overlap_score (Server.toks query)
      (Server.make_tab_tokens t)) = true)
    rw [h0, decide_eq_true_eq]
    exact lt_irrefl 0
  rw [hfil, if_pos List.isEmpty_nil]
  have hmin : min k 1 = 1 := by omega
  rw [List.length_singleton, hmin]
  rfl

/-- C9: whenever `run_agent` answers in cleanup mode with a chosen tab, that
tab's id is never among the suggested-close ids (the kept/matched set and
the close list are complementary by id). -/
theorem claim_C9_cleanup_chosen_not_closed
    (llm : Oracle) (query0 : String) (tabs0 : List Server.TabInput) (i : Int)
    (hmode : (Server.run_agent llm query0 tabs0).mode = "cleanup")
    (hch : (Server.run_agent llm query0 tabs0).chosen_tab_id = some i) :
    i ∉ (Server.run_agent llm query0 tabs0).suggested_close_tab_ids := by
  simp only [Server.run_agent] at hmode hch ⊢
  by_cases hq : pyStrip query0 = ""
  · rw [if_pos hq] at hmode
    exact absurd hmode (by decide)
  rw [if_neg hq] at hmode hch ⊢
  by_cases hte : (tabs0.map (fun t => { t with text := normWs t.text })).isEmpty = true
  · rw [if_pos hte] at hmode
    exact absurd hmode (by decide)
  rw [if_neg hte] at hmode hch ⊢
  by_cases hm1 : Server.detect_mode (pyStrip query0) = "single"
  · rw [if_pos hm1] at hmode
    cases hr : Server.rank_tabs (pyStrip query0)
        (tabs0.map (fun t => { t with text := normWs t.text })) 3 with
    | nil => simp only [hr] at hmode; exact absurd hmode (by decide)
    | cons p rest =>
      cases p with
      | mk top_tab s =>
        simp only [hr] at hmode
        exact absurd hmode (by decide)
  rw [if_neg hm1] at hmode hch ⊢
  by_cases hm2 : Server.detect_mode (pyStrip query0) = "multi"
  · rw [if_pos hm2] at hmode
    cases hr : Server.rank_tabs (pyStrip query0)
        (tabs0.map (fun t => { t with text := normWs t.text })) 6 with
    | nil => simp only [hr] at hmode; exact absurd hmode (by decide)
    | cons r0 rest =>
      simp only [hr] at hmode
      cases hc : Server.compare_tabs llm (pyStrip query0)
          ((r0 :: rest).map Prod.fst) with
      | error e => simp only [hc] at hmode; exact absurd hmode (by decide)
      | ok p =>
        cases p with
        | mk reply_text cid =>
          simp only [hc] at hmode
          exact absurd hmode (by decide)
  rw [if_neg hm2] at hmode hch ⊢
  by_cases hm3 : Server.detect_mode (pyStrip query0) = "cleanup"
  · rw [if_pos hm3] at hmode hch ⊢
    cases hcl : Server.cleanup_tabs (pyStrip query0)
        (tabs0.map (fun t => { t with text := normWs t.text })) with
    | mk m tc =>
      cases m with
      | nil =>
        simp only [hcl] at hch
        exact absurd hch (by simp)
      | cons chosen kept_rest =>
        simp only [hcl] at hch ⊢
        have hid : chosen.id = i := Option.some.inj hch
        have h2 := cleanup_tabs_mem_not_closed (pyStrip query0)
          (tabs0.map (fun t => { t with text := normWs t.text })) chosen
          (by rw [hcl]; exact List.mem_cons_self _ _)
        rw [hcl] at h2
        rw [hid] at h2
        exact h2
  · rcases detect_mode_cases (pyStrip query0) with h | h | h
    · exact absurd h hm1
    · exact absurd h hm2
    · exact absurd h hm3

theorem cleanup_tabs_example_eval :
    Server.cleanup_tabs "focus on qqq" [{ id := 1, title := "aaa" }] =
      ([{ id := 1, title := "aaa" }], []) := by
  have h0 : Server.overlap_score (Server.toks "focus on qqq")
      (Server.make_tab_tokens { id := 1, title := "aaa" }) = 0 :=
    server_overlap_score_disjoint (by decide)
  have hr := rank_tabs_single_zero "focus on qqq" { id := 1, title := "aaa" } 1
    (by decide) h0
  rw [Server.cleanup_tabs]
  rw [show ([{ id := 1, title := "aaa" }] : List Server.TabInput).length = 1 from rfl]
  rw [hr]
  simp only [List.filter_cons, List.filter_nil, h0,
    decide_eq_false (lt_irrefl (0 : ℝ))]
  rfl

theorem run_agent_cleanup_eval :
    (Server.run_agent errOracle "focus on qqq" [{ id := 1, title := "aaa" }]).mode
      = "cleanup" ∧
    (Server.run_agent errOracle "focus on qqq" [{ id := 1, title := "aaa" }]).chosen_tab_id
      = some 1 := by
  have hmap : ([{ id := 1, title := "aaa" }] : List Server.TabInput).map
      (fun t => { t with text := normWs t.text }) = [{ id := 1, title := "aaa" }] := rfl
  have hstrip : pyStrip "focus on qqq" = "focus on qqq" := rfl
  constructor <;>
  · simp only [Server.run_agent, hmap, hstrip]
    rw [if_neg (by decide : ¬("focus on qqq" = ""))]
    rw [if_neg (by decide :
      ¬(([{ id := 1, title := "aaa" }] : List Server.TabInput).isEmpty = true))]
    rw [if_neg (by decide : ¬(Server.detect_mode "focus on qqq" = "single"))]
    rw [if_neg (by decide : ¬(Server.detect_mode "focus on qqq" = "multi"))]
    rw [if_pos (by decide : Server.detect_mode "focus on qqq" = "cleanup")]
    rw [cleanup_tabs_example_eval]

/-- Witness for C9: the concrete cleanup request "focus on qqq" over one tab
returns mode `cleanup` with chosen tab 1, and 1 is not suggested for
closing. -/
theorem claim_C9_cleanup_chosen_not_closed_witness :
    (Server.run_agent errOracle "focus on qqq" [{ id := 1, title := "aaa" }]).mode
      = "cleanup" ∧
    (1 : Int) ∉ (Server.run_agent errOracle "focus on qqq"
      [{ id := 1, title := "aaa" }]).suggested_close_tab_ids :=
  ⟨run_agent_cleanup_eval.1,
   claim_C9_cleanup_chosen_not_closed errOracle "focus on qqq"
     [{ id := 1, title := "aaa" }] 1 run_agent_cleanup_eval.1
     run_agent_cleanup_eval.2⟩

theorem llm_complete_fail (llm : Oracle) (hfail : ∀ msgs, ∃ e, llm msgs = .error e)
    (system user : String) (mc : Nat) :
    Server.llm_complete llm system user mc =
      "Error: language model unavailable. Please try again." := by
  unfold Server.llm_complete
  obtain ⟨e, he⟩ := hfail [("system", system), ("human", pyTake mc user)]
  rw [he]

theorem compare_tabs_fail (llm : Oracle) (query : String)
    (tabs : List Server.TabInput) (ht : tabs ≠ [])
    (hfail : ∀ msgs, ∃ e, llm msgs = .error e) :
    ∃ e, Server.compare_tabs llm query tabs = .error e := by
  simp only [Server.compare_tabs]
  cases hrk : Server.rank_tabs query tabs 6 with
  | nil => exact absurd hrk (rank_tabs_ne_nil query tabs 6 ht (by decide))
  | cons a l =>
    simp only [hrk, List.map_cons, List.isEmpty_cons, Bool.false_eq_true, if_false]
    obtain ⟨e, he⟩ := hfail _
    rw [he]
    exact ⟨e, rfl⟩

/-- C1, counterexample to the claim as stated: a completion service that
*succeeds* with the empty string makes `run_agent` return an empty `reply`
on a non-empty query and non-empty tab list (the `or ""` in `llm_complete`
passes the empty content straight through), so the reply is not non-empty
for *every* behaviour of the service. -/
theorem claim_C1_counterexample :
    (Server.run_agent emptyOkOracle "what is zzz"
      [{ id := 1, title := "aaa" }]).reply = "" := by
  have h0 : Server.overlap_score (Server.toks "what is zzz")
      (Server.make_tab_tokens { id := 1, title := "aaa" }) = 0 :=
    server_overlap_score_disjoint (by decide)
  have hr := rank_tabs_single_zero "what is zzz" { id := 1, title := "aaa" } 3
    (by decide) h0
  have hmap : ([{ id := 1, title := "aaa" }] : List Server.TabInput).map
      (fun t => { t with text := normWs t.text }) = [{ id := 1, title := "aaa" }] := rfl
  have hstrip : pyStrip "what is zzz" = "what is zzz" := rfl
  simp only [Server.run_agent, hmap, hstrip]
  rw [if_neg (by decide : ¬("what is zzz" = ""))]
  rw [if_neg (by decide :
    ¬(([{ id := 1, title := "aaa" }] : List Server.TabInput).isEmpty = true))]
  rw [if_pos (by decide : Server.detect_mode "what is zzz" = "single")]
  simp only [hr]
  rfl

/-- Helper for C1: for every oracle behaviour and every input whatsoever,
`run_agent` returns a reply whose mode is one of the three modes the source
produces ("single", "multi", "cleanup") — every branch of the function,
including the guard branches and the compare-tabs exception handler, sets
one of these three strings, so no service behaviour can escape them. -/
theorem run_agent_mode_cases (llm : Oracle) (query0 : String)
    (tabs0 : List Server.TabInput) :
    (Server.run_agent llm query0 tabs0).mode = "single" ∨
    (Server.run_agent llm query0 tabs0).mode = "multi" ∨
    (Server.run_agent llm query0 tabs0).mode = "cleanup" := by
  simp only [Server.run_agent]
  repeat' split
  all_goals first
    | exact Or.inl rfl
    | exact Or.inr (Or.inl rfl)
    | exact Or.inr (Or.inr rfl)

/-- Helper for C1: when the service always fails or times out, a non-empty
query over a non-empty tab list still yields a non-empty reply (the apology
text, the `"Error: " ++ e` message, or the cleanup template). -/
theorem run_agent_fail_reply_ne (llm : Oracle) (query0 : String)
    (tabs0 : List Server.TabInput)
    (hq : pyStrip query0 ≠ "") (ht : tabs0 ≠ [])
    (hfail : ∀ msgs, ∃ e, llm msgs = Except.error e) :
    (Server.run_agent llm query0 tabs0).reply ≠ "" := by
  have htabs : (tabs0.map fun t => { t with text := normWs t.text }) ≠ [] := by
    simp [ht]
  have hteF : ¬((tabs0.map fun t => { t with text := normWs t.text }).isEmpty = true) := by
    simpa [List.isEmpty_iff] using htabs
  simp only [Server.run_agent]
  rw [if_neg hq, if_neg hteF]
  by_cases hm1 : Server.detect_mode (pyStrip query0) = "single"
  · rw [if_pos hm1]
    cases hr : Server.rank_tabs (pyStrip query0)
        (tabs0.map fun t => { t with text := normWs t.text }) 3 with
    | nil => exact absurd hr (rank_tabs_ne_nil _ _ 3 htabs (by decide))
    | cons p rest =>
      cases p with
      | mk top_tab s =>
        show Server.summarize_tab_content llm top_tab (pyStrip query0) ≠ ""
        simp only [Server.summarize_tab_content]
        rw [llm_complete_fail llm hfail]
        decide
  rw [if_neg hm1]
  by_cases hm2 : Server.detect_mode (pyStrip query0) = "multi"
  · rw [if_pos hm2]
    cases hr : Server.rank_tabs (pyStrip query0)
        (tabs0.map fun t => { t with text := normWs t.text }) 6 with
    | nil => exact absurd hr (rank_tabs_ne_nil _ _ 6 htabs (by decide))
    | cons r0 rest =>
      obtain ⟨e, hc⟩ := compare_tabs_fail llm (pyStrip query0)
        ((r0 :: rest).map Prod.fst) (by simp) hfail
      simp only [hc]
      exact str_append_ne_empty_left _ _ (by decide)
  rw [if_neg hm2]
  by_cases hm3 : Server.detect_mode (pyStrip query0) = "cleanup"
  · rw [if_pos hm3]
    cases hcl : Server.cleanup_tabs (pyStrip query0)
        (tabs0.map fun t => { t with text := normWs t.text }) with
    | mk m tc =>
      cases m with
      | nil =>
        have h2 := cleanup_tabs_fst_ne_nil (pyStrip query0)
          (tabs0.map fun t => { t with text := normWs t.text }) htabs
        rw [hcl] at h2
        exact absurd rfl h2
      | cons chosen kept =>
        show ("**Focus tabs (" ++ toString (chosen :: kept).length ++
          " match)** — I’ll keep these open and suggest closing the rest.\n\n" ++
          "**Primary tab to focus:** [" ++ chosen.title ++ "](" ++ chosen.url ++ ")\n\n" ++
          Server.summarize_tab_content llm chosen
            ("Summarize how this tab relates to: " ++ pyStrip query0) ++ "\n\n" ++
          "_You will be prompted to confirm closing " ++ toString tc.length ++
          " unrelated tab(s) in the extension UI._") ≠ ""
        repeat apply str_append_ne_empty_left
        decide
  · rcases detect_mode_cases (pyStrip query0) with h | h | h
    · exact absurd h hm1
    · exact absurd h hm2
    · exact absurd h hm3

/-- C1 (amended): for every non-empty query, non-empty tab list and *every*
service behaviour, `run_agent` raises no exception (it is a total function
of the oracle) and returns one of the three modes — this first conjunct
holds for succeeding and failing services alike; when the service always
fails or times out, the reply is additionally non-empty.  (A service call
that succeeds with the empty string can produce an empty reply, as the
counterexample shows, so non-emptiness of the reply needs the always-failing
antecedent, which therefore guards only that conjunct.) -/
theorem claim_C1_amended (llm : Oracle) (query0 : String)
    (tabs0 : List Server.TabInput)
    (hq : pyStrip query0 ≠ "") (ht : tabs0 ≠ []) :
    ((Server.run_agent llm query0 tabs0).mode = "single" ∨
     (Server.run_agent llm query0 tabs0).mode = "multi" ∨
     (Server.run_agent llm query0 tabs0).mode = "cleanup") ∧
    ((∀ msgs, ∃ e, llm msgs = Except.error e) →
      (Server.run_agent llm query0 tabs0).reply ≠ "") :=
  ⟨run_agent_mode_cases llm query0 tabs0,
   fun hfail => run_agent_fail_reply_ne llm query0 tabs0 hq ht hfail⟩

/-- Witness for C1 (amended): at the concrete query and single tab the mode
is valid, and instantiating the inner implication with the always-failing
service shows the reply is non-empty there. -/
theorem claim_C1_amended_witness :
    (((Server.run_agent errOracle "what is zzz"
        [{ id := 1, title := "aaa" }]).mode = "single" ∨
      (Server.run_agent errOracle "what is zzz"
        [{ id := 1, title := "aaa" }]).mode = "multi" ∨
      (Server.run_agent errOracle "what is zzz"
        [{ id := 1, title := "aaa" }]).mode = "cleanup") ∧
     (Server.run_agent errOracle "what is zzz"
        [{ id := 1, title := "aaa" }]).reply ≠ "") :=
  have h := claim_C1_amended errOracle "what is zzz" [{ id := 1, title := "aaa" }]
    (by decide) (List.cons_ne_nil _ _)
  ⟨h.1, h.2 (fun _ => ⟨"boom", rfl⟩)⟩

/-! ## `backend/agents/simple_agent.py` -/

namespace SimpleAgent

/-- Tab dicts use the same key set as the classifier's.  The four basic keys
(`id`, `title`, `url`, `text`) are modelled as always present (the browser
extension always sends them), so `tab.get("title", default)` is read as
`t.title`; `price` and `productName` model optional keys. -/
abbrev Tab := Classifier.Tab

/-- One turn of the chat history: `{role, text}`. -/
structure ChatMsg where
  role : String := ""
  text : String := ""

/-- `tab.get("price") and tab.get("price") > 0`: the key is present (not
`None`), truthy (non-zero) and positive. -/
def priced (t : Tab) : Bool :=
  match t.price with
  | none => false
  | some p => decide (p ≠ 0) && decide (0 < p)

/-! ### Fuelled character scanners for the `re` operations of the module.
Each scanner consumes at least one character per step, so running it with
`fuel = length` of the input computes the full traversal; at fuel 0 the
remaining input is necessarily empty. -/

/-- `re.sub(r'[{][^}]*[}]', '', ·)`: at each `{` with a later `}`, drop
everything through the first `}`; a `{` without a closing `}` stays
literal. -/
def rmBracedF : Nat → List Char → List Char
  | 0, cs => cs
  | _ + 1, [] => []
  | n + 1, c :: cs =>
    if c = '{' then
      match cs.dropWhile (fun d => d ≠ '}') with
      | [] => c :: rmBracedF n cs
      | _ :: rest => rmBracedF n rest
    else c :: rmBracedF n cs

def rmBraced (s : String) : String := String.mk (rmBracedF s.data.length s.data)

/-- `re.sub(r'<[^>]+>', '', ·)`: at each `<` followed by at least one
non-`>` character and then a `>`, drop the whole tag; otherwise the `<`
stays literal. -/
def rmTagsF : Nat → List Char → List Char
  | 0, cs => cs
  | _ + 1, [] => []
  | n + 1, c :: cs =>
    if c = '<' then
      let span := cs.takeWhile (fun d => d ≠ '>')
      match span, cs.drop span.length with
      | _ :: _, _ :: rest => rmTagsF n rest
      | _, _ => c :: rmTagsF n cs
    else c :: rmTagsF n cs

def rmTags (s : String) : String := String.mk (rmTagsF s.data.length s.data)

/-- The text clean-up `re.sub([{][^}]*[}]) → re.sub(<[^>]+>) →
`" ".join(text.split())` used before feeding tab text to the model. -/
def cleanTabText (s : String) : String := normWs (rmTags (rmBraced s))

/-- Match of `(am|pm)` at a position (queries are lower-cased before the
search, so the upper-case alternatives never fire). -/
def amPmAt : List Char → Bool
  | 'a' :: 'm' :: _ => true
  | 'p' :: 'm' :: _ => true
  | _ => false

/-- `:` then exactly two digits then `\s*` then `am`/`pm`. -/
def colonTimeTail : List Char → Bool
  | ':' :: d1 :: d2 :: rest =>
    d1.isDigit && d2.isDigit && amPmAt (rest.dropWhile Char.isWhitespace)
  | _ => false

/-- Match of `(\d{1,2}):(\d{2})\s*(am|pm|AM|PM)` starting at this
position. -/
def timeMatchAt : List Char → Bool
  | [] => false
  | d1 :: rest =>
    d1.isDigit &&
      (colonTimeTail rest ||
        (match rest with
         | d2 :: rest2 => d2.isDigit && colonTimeTail rest2
         | [] => false))

/-- `re.search(r'(\d{1,2}):(\d{2})\s*(am|pm|AM|PM)', s)` is truthy, and
`len(re.findall(...)) >= 1`. -/
def hasTimeMatch (s : String) : Bool := s.data.tails.any timeMatchAt

/-- `[A-Z][a-z]+` at this position (ASCII, as in the source's queries):
returns the matched word and the rest. -/
def upperWordAt : List Char → Option (List Char × List Char)
  | [] => none
  | c :: cs =>
    if c.isUpper then
      let lows := cs.takeWhile Char.isLower
      if lows.isEmpty then none else some (c :: lows, cs.drop lows.length)
    else none

def isWordChar (c : Char) : Bool := c.isAlphanum || c = '_'

/-- `\b` holds before the next character (end of string or non-word
character). -/
def boundaryOk : List Char → Bool
  | [] => true
  | c :: _ => !isWordChar c

/-- `(?:\s+[A-Z][a-z]+)*` greedy extension of a proper-name phrase with the
final `\b`: keep appending `whitespace word` groups as long as the word is
followed by a boundary (stopping before a rep whose word runs into another
word character, exactly as the regex backtracks one rep). -/
def nameSeqExt : Nat → List Char → List Char → List Char × List Char
  | 0, acc, cs => (acc, cs)
  | n + 1, acc, cs =>
    let ws := cs.takeWhile Char.isWhitespace
    if ws.isEmpty then (acc, cs)
    else
      match upperWordAt (cs.drop ws.length) with
      | none => (acc, cs)
      | some (w, rest) =>
        if boundaryOk rest then nameSeqExt n (acc ++ ws ++ w) rest
        else (acc, cs)

/-- One match of `\b([A-Z][a-z]+(?:\s+[A-Z][a-z]+)*)\b` at this position
(the caller checks the leading boundary). -/
def nameSeqAt (cs : List Char) : Option (List Char × List Char) :=
  match upperWordAt cs with
  | none => none
  | some (w, rest) =>
    if boundaryOk rest then some (nameSeqExt cs.length w rest)
    else none

/-- `re.findall(r'\b([A-Z][a-z]+(?:\s+[A-Z][a-z]+)*)\b', s)`: scan left to
right, resuming after each match; the Bool tracks whether the previous
character was a non-word character (word boundary). -/
def properNamesF : Nat → Bool → List Char → List String
  | 0, _, _ => []
  | _ + 1, _, [] => []
  | n + 1, atB, c :: cs =>
    if atB then
      match nameSeqAt (c :: cs) with
      | some (m, rest) => String.mk m :: properNamesF n false rest
      | none => properNamesF n (!isWordChar c) cs
    else properNamesF n (!isWordChar c) cs

def properNames (s : String) : List String := properNamesF s.data.length true s.data

/-- Python `s.split(sub)` on a non-empty substring separator (fuelled;
used for `"Search Query:"` and the literal two-character `"\n"`). -/
def splitOnSubF (pat : List Char) : Nat → List Char → List (List Char)
  | 0, cs => [cs]
  | _ + 1, [] => [[]]
  | n + 1, c :: cs =>
    if pat.isPrefixOf (c :: cs) then
      match splitOnSubF pat n ((c :: cs).drop pat.length) with
      | [] => [[]]
      | g :: gs => [] :: g :: gs
    else
      match splitOnSubF pat n cs with
      | [] => [[c]]
      | g :: gs => (c :: g) :: gs

def pySplitOnSub (pat : String) (s : String) : List String :=
  (splitOnSubF pat.data s.data.length s.data).map String.mk

/-- Rest of the list after the first occurrence of `pat` (`None` when `pat`
does not occur).  `s.split(pat, 1)[1]` for present separators. -/
def afterSub (pat : List Char) : List Char → Option (List Char)
  | [] => if pat.isEmpty then some [] else none
  | c :: cs =>
    if pat.isPrefixOf (c :: cs) then some ((c :: cs).drop pat.length)
    else afterSub pat cs

/-- Python `re.split(r"[,&/]", s)`-style split on any of the given
one-character separators. -/
def splitCharsList (seps : List Char) : List Char → List (List Char)
  | [] => [[]]
  | x :: xs =>
    if seps.contains x then [] :: splitCharsList seps xs
    else
      match splitCharsList seps xs with
      | [] => [[x]]
      | g :: gs => (x :: g) :: gs

/-- `urllib.parse.urlparse(url).netloc` for the scheme-prefixed (or
`//`-prefixed) URLs the assistant sees: the text between `//` and the next
`/`, `?` or `#`; empty when the URL has no authority part.  The full
urlparse grammar (params, scheme validation) is not needed by the source's
inputs. -/
def urlNetloc (url : String) : String :=
  let cs := url.data
  let rest : Option (List Char) :=
    if ['/', '/'].isPrefixOf cs then some (cs.drop 2)
    else afterSub [':', '/', '/'] cs
  match rest with
  | none => ""
  | some r => String.mk (r.takeWhile (fun c => c ≠ '/' && c ≠ '?' && c ≠ '#'))

/-- `parse_qs(urlparse(url).query).get('q', [''])[0]` (with the source's
`if 'q' in query_params else ""` guard): the first `q=value` pair of the
query string, `""` when absent or blank (`parse_qs` drops blank values).
Percent and plus decoding is not modelled; the value only feeds a prompt. -/
def urlQueryParamQ (url : String) : String :=
  let q := match url.data.dropWhile (fun c => c ≠ '?') with
    | [] => []
    | _ :: rest => rest.takeWhile (fun c => c ≠ '#')
  let pairs := (splitCharsList ['&'] q).filterMap (fun p =>
    match splitCharList '=' p with
    | k :: v :: _ => if k = "q".data ∧ v ≠ [] then some (String.mk v) else none
    | _ => none)
  pairs.headD ""

/-! ### A flat-object JSON reader -/

/-- JSON scalar values as they appear in the flat objects the agents
request from the model. -/
inductive JVal where
  | str (s : String)
  | num (q : ℚ)
  | bool (b : Bool)
  | null

/-- Python truthiness of a decoded JSON scalar. -/
def JVal.truthy : JVal → Bool
  | .str s => s ≠ ""
  | .num q => decide (q ≠ 0)
  | .bool b => b
  | .null => false

/-- Python `str(value)` for the decoded scalars (only feeds reply text). -/
def JVal.render : JVal → String
  | .str s => s
  | .num q => toString q
  | .bool b => if b then "True" else "False"
  | .null => "None"

/-- String literal without escape handling: the agents' prompts request
plain keys/values and no theorem depends on escaped content. -/
def parseJString : List Char → Option (String × List Char)
  | '"' :: rest =>
    let body := rest.takeWhile (fun c => c ≠ '"')
    match rest.drop body.length with
    | '"' :: rest2 => some (String.mk body, rest2)
    | _ => none
  | _ => none

def parseJNumber (cs : List Char) : Option (ℚ × List Char) :=
  let (neg, cs1) : Bool × List Char :=
    match cs with
    | '-' :: rest => (true, rest)
    | _ => (false, cs)
  let digits := cs1.takeWhile Char.isDigit
  if digits.isEmpty then none
  else
    let intPart : ℕ := digits.foldl (fun a c => a * 10 + (c.toNat - '0'.toNat)) 0
    let cs2 := cs1.drop digits.length
    let (q, cs3) : ℚ × List Char :=
      match cs2 with
      | '.' :: rest =>
        let fdigits := rest.takeWhile Char.isDigit
        let fracNum : ℕ := fdigits.foldl (fun a c => a * 10 + (c.toNat - '0'.toNat)) 0
        ((intPart : ℚ) + (fracNum : ℚ) / ((10 : ℚ) ^ fdigits.length),
          rest.drop fdigits.length)
      | _ => ((intPart : ℚ), cs2)
    some (if neg then -q else q, cs3)

def parseJVal (cs : List Char) : Option (JVal × List Char) :=
  match parseJString cs with
  | some (s, rest) => some (.str s, rest)
  | none =>
    if ['t', 'r', 'u', 'e'].isPrefixOf cs then some (.bool true, cs.drop 4)
    else if ['f', 'a', 'l', 's', 'e'].isPrefixOf cs then some (.bool false, cs.drop 5)
    else if ['n', 'u', 'l', 'l'].isPrefixOf cs then some (.null, cs.drop 4)
    else (parseJNumber cs).map (fun (q, rest) => (JVal.num q, rest))

def skipWs (cs : List Char) : List Char := cs.dropWhile Char.isWhitespace

/-- `"key": value` pairs separated by commas, closed by `}` (fuelled on the
number of pairs). -/
def parseJPairs : Nat → List Char → Option (List (String × JVal) × List Char)
  | 0, _ => none
  | n + 1, cs =>
    match parseJString (skipWs cs) with
    | none => none
    | some (k, rest1) =>
      match skipWs rest1 with
      | ':' :: rest2 =>
        match parseJVal (skipWs rest2) with
        | none => none
        | some (v, rest3) =>
          match skipWs rest3 with
          | ',' :: rest4 =>
            (parseJPairs n rest4).map (fun (ps, r) => ((k, v) :: ps, r))
          | '}' :: rest4 => some ([(k, v)], rest4)
          | _ => none
      | _ => none

/-- `json.loads` restricted to the flat objects the agents expect:
`{"key": value, …}` with string keys and string / number / boolean / null
values.  Malformed input — and also nested objects or arrays, which the
agents never consume field-wise — maps to `none`, the `json.loads`
exception path. -/
def pyJsonLoads (s : String) : Option (List (String × JVal)) :=
  match skipWs s.data with
  | '{' :: rest =>
    match skipWs rest with
    | '}' :: rest2 => if (skipWs rest2).isEmpty then some [] else none
    | _ =>
      match parseJPairs s.data.length rest with
      | some (ps, r) => if (skipWs r).isEmpty then some ps else none
      | none => none
  | _ => none

/-- `data.get(key)`; for the duplicate keys `json.loads` would collapse to
the last occurrence we also take the last. -/
def jGet (data : List (String × JVal)) (k : String) : Option JVal :=
  (data.reverse.find? (fun p => p.1 == k)).map Prod.snd

/-- `re.search(r'\{.*\}', content, re.DOTALL)`: greedy — from the first
`{` to the last `}` (when one follows). -/
def extractJsonSpan (s : String) : Option String :=
  match s.data.dropWhile (fun c => c ≠ '{') with
  | [] => none
  | fromBrace =>
    match fromBrace.reverse.dropWhile (fun c => c ≠ '}') with
    | [] => none
    | rev => some (String.mk rev.reverse)

end SimpleAgent

namespace SimpleAgent

/-- The decoded `price_alert` payload of `_set_price_alert`'s success
path. -/
structure PriceAlert where
  product_name : String
  url : String
  price : Option ℚ
  currency : String
  alert_threshold : JVal
  threshold_type : JVal

/-- The `reminder` payload of `_set_reminder`'s success path. -/
structure Reminder where
  message : String
  timestamp : String
  recurring : Bool

/-- A handler's returned dict.  Every field is `Option`-wrapped: `none`
means the key is absent from the dict (the externally-observable Reply
contract has the first eight keys; `price_alert` and `reminder` are the
extra keys two handlers add). -/
structure SAReply where
  reply : Option String := none
  mode : Option String := none
  chosen_tab_id : Option (Option Int) := none
  suggested_close_tab_ids : Option (List Int) := none
  workspace_summary : Option (List (String × String)) := none
  alerts : Option (List String) := none
  price_info : Option (List (String × String)) := none
  should_ask_cleanup : Option Bool := none
  price_alert : Option PriceAlert := none
  reminder : Option Reminder := none

/-- All eight fields of the output contract are present. -/
def fullyPopulated (r : SAReply) : Prop :=
  r.reply.isSome = true ∧ r.mode.isSome = true ∧ r.chosen_tab_id.isSome = true ∧
  r.suggested_close_tab_ids.isSome = true ∧ r.workspace_summary.isSome = true ∧
  r.alerts.isSome = true ∧ r.price_info.isSome = true ∧
  r.should_ask_cleanup.isSome = true

/-- `datetime.now().strftime("%Y-%m-%d")` (and the fuller timestamps fed to
the reminder prompt): wall-clock readings, modelled as a fixed date — they
only parametrize prompt and reply text. -/
def currentDate : String := "2025-01-01"

/-! ### `_clean_answer` -/

/-- One attempted match of `\s*[Ss]ource\s*:?\s*[^\n]*` (IGNORECASE) at
this position: leading whitespace, `source` case-insensitively, optional
colon with surrounding whitespace, then the rest of the line.  Returns the
input after the match (the newline, if any, stays). -/
def sourceAt (cs : List Char) : Option (List Char) :=
  match cs.dropWhile Char.isWhitespace with
  | s :: o :: u :: r :: c :: e :: rest =>
    if s.toLower = 's' && o.toLower = 'o' && u.toLower = 'u' && r.toLower = 'r'
        && c.toLower = 'c' && e.toLower = 'e' then
      let r1 := rest.dropWhile Char.isWhitespace
      let r2 := match r1 with
        | ':' :: t => t
        | _ => r1
      let r3 := r2.dropWhile Char.isWhitespace
      some (r3.dropWhile (fun d => d ≠ '\n'))
    else none
  | _ => none

def stripSourcesF : Nat → List Char → List Char
  | 0, cs => cs
  | _ + 1, [] => []
  | n + 1, c :: cs =>
    match sourceAt (c :: cs) with
    | some rest => stripSourcesF n rest
    | none => c :: stripSourcesF n cs

/-- `re.sub(r'\s+', ' ', ·)` without stripping. -/
def collapseWsF : Nat → List Char → List Char
  | 0, cs => cs
  | _ + 1, [] => []
  | n + 1, c :: cs =>
    if c.isWhitespace then ' ' :: collapseWsF n (cs.dropWhile Char.isWhitespace)
    else c :: collapseWsF n cs

/-- The tail from this position on matches `\s*\.+$`. -/
def dotTailOk (cs : List Char) : Bool :=
  let r := cs.dropWhile Char.isWhitespace
  !r.isEmpty && r.all (fun c => c = '.')

/-- `re.sub(r'\.\s*\.+$', '.', ·)`: earliest dot whose tail is whitespace
then one-plus dots to the end collapses, with that tail, to a single
dot. -/
def fixDotsF : Nat → List Char → List Char
  | 0, cs => cs
  | _ + 1, [] => []
  | n + 1, c :: cs =>
    if c = '.' && dotTailOk cs then ['.']
    else c :: fixDotsF n cs

/-- `_clean_answer`: the first substitution deletes every
`\s*[Ss]ource\s*:?\s*[^\n]*` span (case-insensitively); afterwards no
`source` substring remains, so the second substitution
(`\s+[Ss]ource\s*$`) never fires and is the identity here.  The third
collapses whitespace runs to single spaces, after which no newline remains,
so the fourth (`\n\s*\n → \n`) is the identity too.  Then `strip()` and the
trailing-dot fix-up. -/
def clean_answer (answer : String) : String :=
  let a1 := stripSourcesF answer.data.length answer.data
  let a2 := collapseWsF a1.length a1
  let a3 := pyStrip (String.mk a2)
  String.mk (fixDotsF a3.data.length a3.data)

/-! ### `_extract_fallback_answer` -/

/-- The birthdate/year regexes of `_extract_fallback_answer` are written
with doubled backslashes inside raw strings (e.g.
`r'\\b(19\\d{2}|20\\d{2})\\b'`), so as regexes they demand literal
backslash characters (that one matches only the exact text `\b19\dd\b` or
`\b20\dd\b`) and never match ordinary page text.  We model them as never
matching, which is exact for every backslash-free input; their branches
fall through to the generic sentence fallback. -/
def brokenRegexFindall (_text : String) : List String := []

/-- `_extract_fallback_answer(query, text, title)`: with the broken date
and year patterns never matching, the birthdate and first/earliest branches
fall through, and the generic sentence-scoring fallback answers. -/
def extract_fallback_answer (query text title : String) : String :=
  let query_lower := pyLower query
  let query_words := ((pySplit query_lower).filter (fun w => w.length > 3)).dedup
  let sentences := ((pySplitChar '.' text).map pyStrip).filter
    (fun s => s ≠ "" && decide (s.length > 20))
  let scored_sentences := sentences.filterMap (fun sentence =>
    let score := (query_words.filter (fun w => strContains (pyLower sentence) w)).length
    if score > 0 then some (score, sentence) else none)
  match scored_sentences.mergeSort (fun a b => decide (b.1 ≤ a.1)) with
  | (_, best_sentence) :: _ =>
    "Based on \x27" ++ title ++ "\x27: " ++ pyTake 250 best_sentence ++ "..."
  | [] =>
    match sentences with
    | s0 :: _ => "Based on \x27" ++ title ++ "\x27: " ++ pyTake 200 s0 ++ "..."
    | [] => "Based on \x27" ++ title ++
        "\x27: The information might be in the tab, but I couldn\x27t extract it. Please check the tab directly."

/-! ### `_find_relevant_tab` -/

/-- The additive score `_find_relevant_tab` assigns one tab. -/
def tabScore (query_lower : String) (query_words key_entities : List String)
    (tab : Tab) : Nat :=
  let title := pyLower tab.title
  let url := pyLower tab.url
  let text_preview := pyLower (pyTake 500 tab.text)
  let entity_boost := (key_entities.map (fun entity =>
    if strContains title entity then 10
    else if (pySplit entity).any (fun w => strContains title w) then 5
    else 0)).sum
  let title_words := ((pySplit title).filter (fun w => w.length > 2)).dedup
  let word_matches := (query_words.filter (fun w => title_words.contains w)).length
  let url_matches := (query_words.filter (fun w => strContains url w)).length
  let domain_parts := pySplitChar '.' (urlNetloc url)
  let domain_boost :=
    if domain_parts.any (fun part => decide (part.length > 2) && query_words.contains part)
    then 15 else 0
  let text_matches := (query_words.filter (fun w => strContains text_preview w)).length
  let is_google_search := strContains url "google.com" && strContains url "/search"
  let is_factual := ["who", "when", "where", "what", "birthdate", "born", "age",
    "height"].any (fun w => strContains query_lower w)
  let google_boost := if is_google_search && is_factual then 2 else 0
  entity_boost + word_matches * 3 + url_matches * 2 + domain_boost +
    text_matches * 1 + google_boost

/-- `_find_relevant_tab(query, tabs)`: best strictly-improving tab by
score; `None` when every tab scores 0 (the initial best). -/
def find_relevant_tab (query : String) (tabs : List Tab) : Option Tab :=
  let query_lower := pyLower query
  let query_words := ((pySplit query_lower).filter (fun w => w.length > 2)).dedup
  let names := properNames query
  let key_entities := (names.filter (fun n => (pySplit n).length ≤ 3)).map pyLower
  (tabs.foldl (fun (acc : Option Tab × Nat) tab =>
    let score := tabScore query_lower query_words key_entities tab
    if score > acc.2 then (some tab, score) else acc) (none, 0)).1

end SimpleAgent

namespace SimpleAgent

/-- `"google.com" in url.lower() and "/search" in url.lower()`. -/
def googleTab (t : Tab) : Bool :=
  strContains (pyLower t.url) "google.com" && strContains (pyLower t.url) "/search"

/-- `chr(10).join(f'{role}: {text}' for msg in chat_history[-6:])`. -/
def chatHistoryBlock (chat_history : List ChatMsg) : String :=
  String.intercalate "\n" ((chat_history.drop (chat_history.length - 6)).map
    (fun m => m.role ++ ": " ++ m.text))

/-- The closing warning line shared by the question-answering prompts. -/
def warnLine : String :=
  "⚠️ Give a DIRECT answer immediately. Do NOT explain your search process. Do NOT say \x27Source:\x27. Just give the answer naturally."

/-- Words that flag a chronological question. -/
def chronoWords : List String :=
  ["first", "earliest", "oldest", "beginning", "start", "debut",
   "birthdate", "birthday", "born"]

/-- System prompt of `_answer_question`.  The instruction text (the CRITICAL
INSTRUCTIONS block) is an opaque argument to the completion oracle — no
theorem depends on it — so it is abbreviated; the chronological variant
differs from the plain one exactly as in the source. -/
def aqSystemPrompt (chrono : Bool) : String :=
  "You are TabSensei, an assistant that answers questions based ONLY on the provided content.\nCurrent Date: "
    ++ currentDate ++ "\n\n"
    ++ (if chrono then
          "[chronological CRITICAL INSTRUCTIONS: find all dates, identify the earliest, answer directly without citing sources]"
        else
          "[CRITICAL INSTRUCTIONS: answer directly without citing sources]")

/-- System prompt of `_answer_question_all_tabs` (abbreviated like
`aqSystemPrompt`). -/
def aqatSystemPrompt (chrono : Bool) : String :=
  "You are TabSensei, an assistant that answers questions based ONLY on the provided content from multiple tabs.\nCurrent Date: "
    ++ currentDate ++ "\n\n"
    ++ (if chrono then
          "[chronological CRITICAL INSTRUCTIONS over all tabs: find all dates, identify the earliest, answer directly without citing sources]"
        else
          "[CRITICAL INSTRUCTIONS over all tabs: answer directly without citing sources]")

/-! ### `_count_tabs` -/

def countTabLine (n : Nat) (t : Tab) : String :=
  toString n ++ ". " ++ t.title ++ " ("
    ++ (if googleTab t then "Google Search" else "Regular tab") ++ ")"

/-- `_count_tabs(query, tabs)`: ask the model to present the tab count and
list, falling back to a plain enumeration; mode `analysis`. -/
def count_tabs (llm : Oracle) (query : String) (tabs : List Tab) : SAReply :=
  match tabs with
  | [] =>
    let system_prompt :=
      "You are TabSensei, an assistant that helps users manage their browser tabs. Answer naturally and conversationally."
    let user_prompt :=
      "The user asked how many tabs are open. There are currently no tabs open."
    let reply :=
      match llm [("system", system_prompt), ("human", user_prompt)] with
      | .ok r => r
      | .error _ => "No tabs are currently open."
    { reply := some reply, mode := some "analysis", chosen_tab_id := some none,
      suggested_close_tab_ids := some [], workspace_summary := some [],
      alerts := some [], price_info := some [], should_ask_cleanup := some false }
  | t0 :: _ =>
    let system_prompt :=
      "You are TabSensei, an assistant that helps users manage their browser tabs.\nAnswer the user\x27s question about their tabs naturally and conversationally.\nFormat your response in a clear, user-friendly way using markdown. Be concise but informative."
    let user_prompt :=
      "The user asked: \"" ++ query ++ "\"\n\nHere are all the open tabs:\n"
        ++ String.intercalate "\n" (tabs.enum.map (fun p => countTabLine (p.1 + 1) p.2))
        ++ "\n\nTotal number of tabs: " ++ toString tabs.length
        ++ "\n\nPlease answer the user\x27s question naturally. Include the count and list all tabs in a clear format."
    let reply :=
      match llm [("system", system_prompt), ("human", user_prompt)] with
      | .ok r => r
      | .error _ =>
        "You have " ++ toString tabs.length ++ " tabs open:\n\n"
          ++ String.join (tabs.enum.map (fun p =>
              toString (p.1 + 1) ++ ". " ++ p.2.title ++ "\n"))
    { reply := some reply, mode := some "analysis", chosen_tab_id := some t0.id,
      suggested_close_tab_ids := some [], workspace_summary := some [],
      alerts := some [], price_info := some [], should_ask_cleanup := some false }

/-! ### `_answer_question_all_tabs` -/

/-- One cleaned entry of `tab_contents`. -/
structure TabContent where
  title : String
  url : String
  text : String
  id : Option Int

/-- The `tab_contents` filter of `_answer_question_all_tabs`: clean the tab
text and keep it when it meets the (Google-lowered) minimum length. -/
def tabContentOf (tab : Tab) : Option TabContent :=
  let text := cleanTabText (pyStrip tab.text)
  let min_content_length := if googleTab tab then 10 else 50
  if text ≠ "" && decide (min_content_length ≤ text.length) then
    some { title := tab.title, url := tab.url, text := pyTake 4000 text, id := tab.id }
  else none

def tabBlock (i : Nat) (tc : TabContent) : String :=
  "--- Tab " ++ toString i ++ ": " ++ tc.title ++ " ---\nURL: " ++ tc.url
    ++ "\n\n" ++ tc.text ++ "\n"

/-- The combined-content assembly, including the 8000-character
redistribution that keeps the relevant tab in full.  (The source joins the
parts with the two-character literal `\n` — `"\\n".join` — reproduced
here.)  Python's signed arithmetic for `remaining_chars` cannot go negative
for the ≤ 4000-character texts the caller builds, so ℕ subtraction and
division model the reachable cases. -/
def buildCombined (tab_contents : List TabContent) (relevant_tab : Option Tab) : String :=
  let combined := String.intercalate "\x5cn"
    (tab_contents.enum.map (fun p => tabBlock (p.1 + 1) p.2))
  if 8000 < combined.length then
    match relevant_tab with
    | some rt =>
      let relevant_idx :=
        ((tab_contents.enum.find? (fun p => p.2.id == rt.id)).map Prod.fst).getD 0
      let relevant_content := tab_contents.getD relevant_idx ⟨"", "", "", none⟩
      let other_content :=
        (tab_contents.enum.filter (fun p => p.1 != relevant_idx)).map Prod.snd
      let head := "--- Tab 1: " ++ relevant_content.title ++ " ---\nURL: "
        ++ relevant_content.url ++ "\n\n" ++ relevant_content.text ++ "\n\n"
      let remaining_chars := 8000 - head.length
      head ++ String.join (other_content.enum.map (fun p =>
        "--- Tab " ++ toString (p.1 + 2) ++ ": " ++ p.2.title ++ " ---\nURL: "
          ++ p.2.url ++ "\n\n"
          ++ pyTake (remaining_chars / other_content.length) p.2.text ++ "\n\n"))
    | none =>
      let per_tab := 8000 / tab_contents.length
      String.intercalate "\x5cn" (tab_contents.enum.map (fun p =>
        "--- Tab " ++ toString (p.1 + 1) ++ ": " ++ p.2.title ++ " ---\nURL: "
          ++ p.2.url ++ "\n\n" ++ pyTake per_tab p.2.text ++ "\n"))
  else combined

/-- `_answer_question_all_tabs(query, tabs, chat_history)`: every return
path carries mode `"single"`. -/
def answer_question_all_tabs (llm : Oracle) (query : String) (tabs : List Tab)
    (chat_history : List ChatMsg) : SAReply :=
  match tabs with
  | [] =>
    { reply := some "No tabs available to answer your question.",
      mode := some "single", chosen_tab_id := some none,
      suggested_close_tab_ids := some [], workspace_summary := some [],
      alerts := some [], price_info := some [], should_ask_cleanup := some false }
  | t0 :: _ =>
    match tabs.filterMap tabContentOf with
    | [] =>
      { reply := some "None of the tabs have enough content to answer your question.",
        mode := some "single", chosen_tab_id := some t0.id,
        suggested_close_tab_ids := some [], workspace_summary := some [],
        alerts := some [], price_info := some [], should_ask_cleanup := some false }
    | tc0 :: tcs =>
      let tab_contents := tc0 :: tcs
      let relevant_tab := find_relevant_tab query tabs
      let chosen_tab_id : Option Int :=
        match relevant_tab with
        | some rt => rt.id
        | none => tc0.id
      let is_chronological := chronoWords.any (fun w => strContains (pyLower query) w)
      let system_prompt := aqatSystemPrompt is_chronological
      let combined_content := buildCombined tab_contents relevant_tab
      let user_prompt :=
        "Question: " ++ query ++ "\n\nContent from "
          ++ toString tab_contents.length ++ " tab(s):\n\n" ++ combined_content
          ++ "\n\nChat History:\n" ++ chatHistoryBlock chat_history
          ++ "\n\n" ++ warnLine
      let fallback : SAReply :=
        let answer :=
          match relevant_tab with
          | some rt =>
            extract_fallback_answer query (cleanTabText (pyStrip rt.text)) rt.title
          | none =>
            "I couldn\x27t analyze all tabs in time. Please try again or check the tabs directly."
        { reply := some answer, mode := some "single",
          chosen_tab_id := some chosen_tab_id,
          suggested_close_tab_ids := some [], workspace_summary := some [],
          alerts := some [], price_info := some [], should_ask_cleanup := some false }
      match llm [("system", system_prompt), ("human", user_prompt)] with
      | .error _ => fallback
      | .ok answer =>
        if answer = "" || decide (answer.length < 5) then fallback
        else
          { reply := some (clean_answer answer), mode := some "single",
            chosen_tab_id := some chosen_tab_id,
            suggested_close_tab_ids := some [], workspace_summary := some [],
            alerts := some [], price_info := some [], should_ask_cleanup := some false }

/-! ### `_answer_question` -/

/-- `_answer_question(query, tab, all_tabs, chat_history)`: single-tab
question answering; every return path carries mode `"single"`.  (The
source's `pass # Continue processing` arm for Google tabs sits inside the
`len(text) < 20` guard but requires `len(text) >= 20`, so it is
unreachable.) -/
def answer_question (llm : Oracle) (query : String) (tab : Tab)
    (_all_tabs : List Tab) (chat_history : List ChatMsg) : SAReply :=
  let title := tab.title
  let url := tab.url
  let text := pyTake 25000 (pyStrip tab.text)
  let is_google_search :=
    strContains (pyLower url) "google.com" && strContains (pyLower url) "/search"
  if text = "" || decide (text.length < 20) then
    if is_google_search then
      { reply := some ("The Google search tab \x27" ++ title
          ++ "\x27 doesn\x27t have extractable search results. The page might still be loading or the results are not accessible."),
        mode := some "single", chosen_tab_id := some tab.id,
        suggested_close_tab_ids := some [], workspace_summary := some [],
        alerts := some [], price_info := some [], should_ask_cleanup := some false }
    else
      { reply := some ("The tab \x27" ++ title
          ++ "\x27 doesn\x27t have enough content to answer your question."),
        mode := some "single", chosen_tab_id := some tab.id,
        suggested_close_tab_ids := some [], workspace_summary := some [],
        alerts := some [], price_info := some [], should_ask_cleanup := some false }
  else
    let is_chronological := chronoWords.any (fun w => strContains (pyLower query) w)
    let system_prompt := aqSystemPrompt is_chronological
    let user_prompt :=
      "Question: " ++ query ++ "\n\nContent from: " ++ title ++ "\nURL: " ++ url
        ++ "\n\n" ++ text ++ "\n\nChat History:\n" ++ chatHistoryBlock chat_history
        ++ "\n\n" ++ warnLine
    let fallback : SAReply :=
      { reply := some (extract_fallback_answer query text title),
        mode := some "single", chosen_tab_id := some tab.id,
        suggested_close_tab_ids := some [], workspace_summary := some [],
        alerts := some [], price_info := some [], should_ask_cleanup := some false }
    match llm [("system", system_prompt), ("human", user_prompt)] with
    | .error _ => fallback
    | .ok answer =>
      if answer = "" || decide (answer.length < 5) then fallback
      else
        { reply := some (clean_answer answer), mode := some "single",
          chosen_tab_id := some tab.id,
          suggested_close_tab_ids := some [], workspace_summary := some [],
          alerts := some [], price_info := some [], should_ask_cleanup := some false }

end SimpleAgent

namespace SimpleAgent

/-! ### `_set_price_alert` -/

/-- The product-tab search loop: remember the first priced tab, break early
on a priced tab whose product name occurs in the query. -/
def findProductTab (query : String) : List Tab → Option Tab → Option Tab
  | [], acc => acc
  | t :: ts, acc =>
    if priced t then
      if (match t.productName with
          | some pn => pn ≠ "" && strContains (pyLower query) (pyLower pn)
          | none => false) then
        some t
      else findProductTab query ts (acc <|> some t)
    else findProductTab query ts acc

/-- System prompt of `_set_price_alert` (threshold-extraction instructions
abbreviated — they are an opaque oracle argument). -/
def priceAlertSystemPrompt (pt : Tab) : String :=
  "You are a helpful assistant that extracts price alert details.\nProduct: "
    ++ pt.productName.getD "Unknown Product" ++ "\nCurrent Price: "
    ++ (match pt.price with
        | some p => toString p
        | none => "0")
    ++ "\n[threshold-extraction instructions requesting a JSON object with alert_threshold and threshold_type]"

/-- The module's price-alert error dict: note it carries only `reply`,
`mode` and `chosen_tab_id`. -/
def priceAlertFail : SAReply :=
  { reply := some "I couldn\x27t understand the price alert details. Please try again.",
    mode := some "price_alert", chosen_tab_id := some none }

/-- `_set_price_alert(query, tabs)`: the no-product and extraction-error
paths return three-key dicts; only the success path has the full shape
(plus the extra `price_alert` key). -/
def set_price_alert (llm : Oracle) (query : String) (tabs : List Tab) : SAReply :=
  match findProductTab query tabs none with
  | none =>
    { reply := some "I couldn\x27t find any product with a price in your open tabs. Please open a product page first.",
      mode := some "price_alert", chosen_tab_id := some none }
  | some product_tab =>
    match llm [("system", priceAlertSystemPrompt product_tab),
               ("human", "User Request: " ++ query)] with
    | .error _ => priceAlertFail
    | .ok content =>
      match extractJsonSpan content with
      | none => priceAlertFail
      | some json_str =>
        match pyJsonLoads json_str with
        | none => priceAlertFail
        | some data =>
          let price_alert : PriceAlert :=
            { product_name := product_tab.productName.getD product_tab.title,
              url := product_tab.url,
              price := product_tab.price,
              currency := "USD",
              alert_threshold := (jGet data "alert_threshold").getD (.num 5),
              threshold_type := (jGet data "threshold_type").getD (.str "percentage") }
          { reply := some ("I\x27m setting a price alert for "
              ++ price_alert.product_name ++ "."),
            price_alert := some price_alert,
            mode := some "price_alert", chosen_tab_id := some product_tab.id,
            suggested_close_tab_ids := some [], workspace_summary := some [],
            alerts := some [], price_info := some [], should_ask_cleanup := some false }

/-! ### `_set_reminder` -/

/-- System prompt of `_set_reminder` (the long time-parsing / correction /
timezone rule text is an opaque oracle argument and is abbreviated). -/
def reminderSystemPrompt : String :=
  "You are a helpful assistant that extracts reminder details.\nCurrent Date/Time (local): "
    ++ currentDate ++ "\nCurrent Date/Time (Pacific): " ++ currentDate
    ++ "\n[time-parsing, correction, timezone and recurrence rules requesting a JSON object with message, timestamp and recurring]"

def reminderUserPrompt (query : String) (chat_history : List ChatMsg) : String :=
  "Chat History (for context only - do NOT include previous messages in the reminder message):\n"
    ++ chatHistoryBlock chat_history ++ "\n\nUser Request: " ++ query
    ++ "\n\n[message-extraction instructions]"

/-- The success path renders the timestamp with `datetime.fromisoformat` +
`strftime`; we model the rendering with the source's own string fallback
(`timestamp.split('T')[1].split('-')[0]` when a `T` is present).  It only
feeds the reply text. -/
def friendlyTime (ts : String) : String :=
  if strContains ts "T" then
    match pySplitChar 'T' ts with
    | _ :: second :: _ => (pySplitChar '-' second).headD ""
    | _ => ts
  else ts

def reminderFail : SAReply :=
  { reply := some "I couldn\x27t understand when to set the reminder. Please specify a time.",
    mode := some "reminder", chosen_tab_id := some none,
    suggested_close_tab_ids := some [], workspace_summary := some [],
    alerts := some [], price_info := some [], should_ask_cleanup := some false }

/-- `_set_reminder(query, chat_history)`: only a truthy *string* timestamp
reaches the success dict (a non-string timestamp makes both the `strftime`
path and its `split('T')` fallback raise, landing in the outer handler).
`message` is rendered as Python would interpolate the decoded value, and
`recurring` is the value's truthiness, which decides the reply wording. -/
def set_reminder (llm : Oracle) (query : String) (chat_history : List ChatMsg) : SAReply :=
  match llm [("system", reminderSystemPrompt),
             ("human", reminderUserPrompt query chat_history)] with
  | .error _ => reminderFail
  | .ok content =>
    match extractJsonSpan content with
    | none => reminderFail
    | some json_str =>
      match pyJsonLoads json_str with
      | none => reminderFail
      | some data =>
        let message :=
          match jGet data "message" with
          | some v => v.render
          | none => "Reminder"
        let recurring :=
          match jGet data "recurring" with
          | some v => v.truthy
          | none => false
        match jGet data "timestamp" with
        | some (.str ts) =>
          if ts ≠ "" then
            let friendly_time := friendlyTime ts
            let reply_text :=
              if recurring then
                "I\x27ve set a daily reminder for: " ++ message ++ " at " ++ friendly_time
              else
                "I\x27ve set a reminder for: " ++ message ++ " at " ++ friendly_time
            { reply := some reply_text,
              reminder := some { message := message, timestamp := ts, recurring := recurring },
              mode := some "reminder", chosen_tab_id := some none,
              suggested_close_tab_ids := some [], workspace_summary := some [],
              alerts := some [], price_info := some [], should_ask_cleanup := some false }
          else reminderFail
        | some _ => reminderFail
        | none => reminderFail

end SimpleAgent

namespace SimpleAgent

/-! ### `_close_irrelevant_tabs` -/

def closeStopwords : List String :=
  ["close", "tabs", "tab", "irrelevant", "relevant", "only", "keep", "and",
   "the", "all", "other"]

def keepMarkers : List String := ["to ", "for ", "relevant to ", "related to "]

/-- Keywords after the first occurring `to `/`for ` marker: split the tail
on `[,&/]`, keep per-part the purely alphabetic whitespace-split tokens,
re-joined by single spaces. -/
def extractKeepKeywords (query_lower : String) : List String :=
  match keepMarkers.find? (fun m => strContains query_lower m) with
  | none => []
  | some marker =>
    match afterSub marker.data query_lower.data with
    | none => []
    | some tail =>
      let raw_parts := ((splitCharsList [',', '&', '/'] tail).map
        (fun p => pyStrip (String.mk p))).filter (fun p => p ≠ "")
      raw_parts.filterMap (fun part =>
        let tokens := (pySplit part).filter
          (fun t => t ≠ "" && t.data.all Char.isAlpha)
        let phrase := pyStrip (String.intercalate " " tokens)
        if phrase ≠ "" then some phrase else none)

/-- Fallback keywords: the `[a-z0-9]+` runs of the lower-cased query minus
the stopword list. -/
def fallbackKeepKeywords (query_lower : String) : List String :=
  ((runsBy (fun c => c.isLower || c.isDigit) query_lower.data).map String.mk).filter
    (fun t => !(closeStopwords.contains t))

/-- `_close_irrelevant_tabs(query, tabs)`: decide keep/close per tab id by
keyword occurrence in title+url+text; note every return path carries mode
`"single"` (the module has no `"cleanup"` mode string). -/
def close_irrelevant_tabs (query : String) (tabs : List Tab) : SAReply :=
  let query_lower := pyLower query
  let kk := extractKeepKeywords query_lower
  let keep_keywords := if kk.isEmpty then fallbackKeepKeywords query_lower else kk
  if tabs.isEmpty || keep_keywords.isEmpty then
    { reply := some "I couldn\x27t confidently tell which tabs are relevant, so I didn\x27t close anything.",
      mode := some "single", chosen_tab_id := some none,
      suggested_close_tab_ids := some [], workspace_summary := some [],
      alerts := some [], price_info := some [], should_ask_cleanup := some false }
  else
    let decisions := tabs.filterMap (fun tab => tab.id.map (fun tid =>
      let haystack := String.intercalate " "
        [pyLower tab.title, pyLower tab.url, pyLower tab.text]
      (tid, keep_keywords.any (fun kw => strContains haystack kw))))
    let keep_ids := (decisions.filter (fun d => d.2)).map Prod.fst
    let close_ids := (decisions.filter (fun d => !d.2)).map Prod.fst
    if close_ids.isEmpty then
      { reply := some "All your current tabs look relevant to what you asked about, so I didn\x27t close anything.",
        mode := some "single", chosen_tab_id := some none,
        suggested_close_tab_ids := some [], workspace_summary := some [],
        alerts := some [], price_info := some [], should_ask_cleanup := some false }
    else
      let kept_titles := (tabs.filter (fun t =>
        match t.id with
        | some i => keep_ids.contains i
        | none => false)).map (fun t => t.title)
      let reply :=
        if !kept_titles.isEmpty then
          let kept_list := String.intercalate "; " (kept_titles.take 4)
            ++ (if 4 < kept_titles.length then " …" else "")
          "I\x27ll keep the tabs related to: " ++ String.intercalate ", " keep_keywords
            ++ ".\n\nKept " ++ toString keep_ids.length ++ " tab(s): " ++ kept_list
            ++ "\nand will close " ++ toString close_ids.length ++ " other tab(s)."
        else
          "I\x27m closing " ++ toString close_ids.length
            ++ " tab(s) that look unrelated to "
            ++ String.intercalate ", " keep_keywords ++ "."
      { reply := some reply, mode := some "single", chosen_tab_id := some none,
        suggested_close_tab_ids := some close_ids, workspace_summary := some [],
        alerts := some [], price_info := some [], should_ask_cleanup := some false }

/-! ### `_analyze_tabs` -/

structure SummaryEntry where
  title : String
  summary : String

/-- The Google-tab summary prompt (the source builds it with the
two-character literal `\n` separators of its `f"…\\n…"` string, reproduced
as `\x5cn`). -/
def googleSummaryPrompt (title url search_query text : String) : String :=
  "Tab: " ++ title ++ "\x5cnURL: " ++ url
    ++ "\x5cn\x5cnThis is a Google Search results page.\x5cnSearch Query: "
    ++ (if search_query ≠ "" then search_query else "Unknown")
    ++ "\x5cn\x5cnContent extracted from search results:\x5cn" ++ pyTake 2000 text
    ++ "\x5cn\x5cnProvide a concise 2-3 sentence summary of what this search is about and what information is available in the search results."

def tabSummaryPrompt (title url text : String) : String :=
  "Tab: " ++ title ++ "\x5cn" ++ "URL: " ++ url ++ "\x5cn\x5cn" ++ "Content:\x5cn"
    ++ pyTake 2500 text
    ++ "\x5cn\x5cnProvide a concise 2-3 sentence summary of what this tab is about. Focus on the main topic and key information."

/-- The search-query extraction for Google tabs: the `q` URL parameter,
else the text after `"Search Query:"` up to the next literal `\n`
two-character sequence. -/
def extractSearchQuery (url text : String) : String :=
  let sq := urlQueryParamQ url
  if sq = "" && strContains text "Search Query:" then
    match afterSub "Search Query:".data text.data with
    | some tail => pyStrip ((pySplitOnSub "\x5cn" (String.mk tail)).headD "")
    | none => ""
  else sq

/-- The always-include fallback summary for Google tabs. -/
def googleFallbackSummary (title search_query text : String) : SummaryEntry :=
  let sq := if search_query ≠ "" then search_query else "unknown query"
  if text ≠ "" && decide (10 ≤ text.length) then
    let lines := (((pySplitOnSub "\x5cn" text).map pyStrip).filter
      (fun l => l ≠ "")).take 5
    let preview :=
      if lines.isEmpty then "" else pyTake 150 (String.intercalate " " (lines.take 3))
    if preview ≠ "" then
      { title := title,
        summary := "**Google Search:** \x27" ++ sq ++ "\x27\x5cn\x5cn" ++ preview ++ "..." }
    else
      { title := title,
        summary := "**Google Search:** \x27" ++ sq
          ++ "\x27\x5cn\x5cn*Search results page - content may be dynamically loaded.*" }
  else
    { title := title,
      summary := "**Google Search:** \x27" ++ sq
        ++ "\x27\x5cn\x5cn*Search results are dynamically loaded. This tab is open but content extraction is limited.*" }

/-- The per-tab summary step of `_analyze_tabs` (the per-call timeout and
the surrounding exception handler reach the same fallbacks, collapsed into
the oracle's `.error` branch). -/
def summarizeOneTab (llm : Oracle) (tab : Tab) : SummaryEntry :=
  let title := tab.title
  let url := tab.url
  let is_google_search := googleTab tab
  let text := pyTake 3000 (cleanTabText (pyStrip tab.text))
  if is_google_search then
    let search_query := extractSearchQuery url text
    if text ≠ "" && decide (10 ≤ text.length) then
      match llm [("human", googleSummaryPrompt title url search_query text)] with
      | .ok summary => { title := title, summary := pyTake 300 summary }
      | .error _ => googleFallbackSummary title search_query text
    else googleFallbackSummary title search_query text
  else
    if text = "" || decide (text.length < 20) then
      { title := title,
        summary := "*Limited content available. This tab may require manual inspection.*" }
    else
      match llm [("human", tabSummaryPrompt title url text)] with
      | .ok summary => { title := title, summary := pyTake 300 summary }
      | .error _ =>
        let sentences := ((pySplitChar '.' text).map pyStrip).filter
          (fun s => s ≠ "" && decide (20 < s.length))
        let summary :=
          if !sentences.isEmpty then String.intercalate ". " (sentences.take 2) ++ "."
          else "Content from " ++ title ++ ": " ++ pyTake 150 text ++ "..."
        { title := title, summary := pyTake 300 summary }

def analyzeFormatSystemPrompt : String :=
  "You are TabSensei, an assistant that helps users manage their browser tabs.\nAnalyze and present tab information in a clear, user-friendly way using markdown.\nFormat your response naturally - use headers, lists, and formatting as appropriate. Be concise but informative.\nCRITICAL: You MUST list ALL tabs provided in the analysis. Do not skip any tabs."

/-- `_analyze_tabs(query, tabs)`: summarize every tab, then let the model
format the report (plain enumeration on failure); mode `"analysis"` on both
return paths. -/
def analyze_tabs (llm : Oracle) (query : String) (tabs : List Tab) : SAReply :=
  match tabs with
  | [] =>
    { reply := some "No tabs available to analyze.", mode := some "analysis",
      chosen_tab_id := some none,
      suggested_close_tab_ids := some [], workspace_summary := some [],
      alerts := some [], price_info := some [], should_ask_cleanup := some false }
  | t0 :: _ =>
    let summaries := tabs.map (summarizeOneTab llm)
    let summary_text := "Total tabs: " ++ toString tabs.length ++ "\x5cn\x5cn"
      ++ String.join (summaries.enum.map (fun p =>
          "Tab " ++ toString (p.1 + 1) ++ ": " ++ p.2.title ++ "\x5cn"
            ++ "Summary: " ++ p.2.summary ++ "\x5cn\x5cn"))
    let user_prompt := "The user asked: \"" ++ query ++ "\"\x5cn\x5cn"
      ++ "Here is the analysis of all open tabs:\x5cn\x5cn" ++ summary_text
      ++ "\x5cn\x5cnPlease present this information in a clear, well-formatted way. Use markdown formatting naturally - headers, lists, emphasis, etc. Make it easy to read and understand."
    let reply :=
      match llm [("system", analyzeFormatSystemPrompt), ("human", user_prompt)] with
      | .ok r => r
      | .error _ =>
        "Analysis of " ++ toString tabs.length ++ " tab(s):\x5cn\x5cn"
          ++ String.join (summaries.enum.map (fun p =>
              toString (p.1 + 1) ++ ". " ++ p.2.title ++ "\x5cn"
                ++ "   " ++ p.2.summary ++ "\x5cn\x5cn"))
    { reply := some reply, mode := some "analysis", chosen_tab_id := some t0.id,
      suggested_close_tab_ids := some [], workspace_summary := some [],
      alerts := some [], price_info := some [], should_ask_cleanup := some false }

end SimpleAgent

namespace SimpleAgent

/-! ### The routing guards of `process` (in source order) -/

def countTabsPhrases : List String :=
  ["how many tabs", "how many tab", "how manytabs", "count tabs", "number of tabs"]

def countTabsGuard (ql : String) : Bool :=
  countTabsPhrases.any (fun p => strContains ql p)

def questionWords : List String :=
  ["what", "when", "where", "who", "which", "how", "why",
   "birthdate", "birthday", "born", "age", "first", "last"]

def analysisVetoPhrases : List String :=
  ["analyze", "all tabs", "my tabs", "what tabs", "show tabs", "list tabs",
   "how many tabs", "how manytabs"]

/-- `is_specific_question`: a `?` in the raw query, or a question word
without an analysis phrase in the lower-cased query. -/
def isSpecificQuestion (query ql : String) : Bool :=
  strContains query "?" ||
    (questionWords.any (fun w => strContains ql w) &&
      !(analysisVetoPhrases.any (fun p => strContains ql p)))

def checkAllTabsPhrases : List String :=
  ["all tabs", "analyze", "summary", "summarize", "compare", "search all",
   "think again", "try again", "analyze again"]

def checkAllTabsGuard (ql : String) : Bool :=
  checkAllTabsPhrases.any (fun p => strContains ql p)

def howManyGuard (ql : String) : Bool :=
  strContains ql "how many" &&
    !(["how many tabs", "how many tab"].any (fun p => strContains ql p))

def price_alert_keywords : List String :=
  ["price", "cost", "expensive", "cheap", "product", "item"]

def alert_keywords : List String :=
  ["alert", "notify", "remind", "tell me", "let me know", "set", "yes",
   "yeah", "please", "do it"]

def drop_keywords : List String :=
  ["lower", "drop", "down", "decrease", "fall", "sale", "discount"]

/-- `recent_chat`: the last four history turns with a user/assistant role,
joined and lower-cased. -/
def recentChatOf (chat_history : List ChatMsg) : String :=
  pyLower (String.intercalate " "
    (((chat_history.drop (chat_history.length - 4)).filter
      (fun m => m.role == "user" || m.role == "assistant")).map (fun m => m.text)))

def hasPriceContext (ql : String) (chat_history : List ChatMsg) : Bool :=
  price_alert_keywords.any (fun w => strContains (recentChatOf chat_history) w) ||
    price_alert_keywords.any (fun w => strContains ql w)

def hasAlertRequest (ql : String) : Bool :=
  alert_keywords.any (fun w => strContains ql w)

def hasDropMention (ql : String) (chat_history : List ChatMsg) : Bool :=
  drop_keywords.any (fun w => strContains ql w) ||
    drop_keywords.any (fun w => strContains (recentChatOf chat_history) w)

/-- The full price-alert branch condition: the source nests the
`has_product_with_price` check inside the other three, falling through to
the reminder checks when it fails, which is the same dispatch as this
conjunction. -/
def priceAlertGuard (ql : String) (chat_history : List ChatMsg)
    (tabs : List Tab) : Bool :=
  hasPriceContext ql chat_history && hasAlertRequest ql &&
    (hasDropMention ql chat_history || strContains ql "price" ||
      strContains (recentChatOf chat_history) "price") &&
    tabs.any priced

def reminder_phrases : List String :=
  ["remind me", "set a reminder", "set reminder", "alert me", "notify me",
   "can you set a reminder", "can you remind me", "please remind me",
   "create a reminder", "add a reminder", "set an alarm", "set alarm",
   "alarm me", "create an alarm"]

def timePatternWords : List String :=
  ["everyday", "every day", "daily", "at ", "pm", "am", ":", "7:45", "8:00"]

def hasTimePattern (ql : String) : Bool :=
  timePatternWords.any (fun w => strContains ql w)

def correction_keywords : List String :=
  ["i said", "not", "wrong", "correction", "that\x27s wrong", "that was",
   "should be", "meant"]

def hasReminderIntent (ql : String) : Bool :=
  reminder_phrases.any (fun p => strContains ql p) ||
    (hasTimePattern ql &&
      ["remind", "alert", "notify", "tell", "alarm"].any (fun w => strContains ql w))

/-- The `reversed(chat_history[-3:])` scan assigns on every hit, so the
surviving value is the *earliest* message of each role within the last
three turns. -/
def lastRoleMsgs (chat_history : List ChatMsg) : String × String :=
  (chat_history.drop (chat_history.length - 3)).reverse.foldl
    (fun acc msg =>
      if msg.role == "assistant" then (pyLower msg.text, acc.2)
      else if msg.role == "user" then (acc.1, pyLower msg.text)
      else acc) ("", "")

/-- The follow-up/correction detection block of `process`
(`is_reminder_followup`, `is_reminder_correction`). -/
def reminderFollowCorrect (ql : String) (chat_history : List ChatMsg) : Bool × Bool :=
  if chat_history.isEmpty then (false, false)
  else
    let lam := (lastRoleMsgs chat_history).1
    let lum := (lastRoleMsgs chat_history).2
    let htp := hasTimePattern ql
    let fuco1 : Bool × Bool :=
      if lam ≠ "" &&
          (strContains lam "reminder" || (strContains lam "set" && strContains lam "at")) then
        if correction_keywords.any (fun k => strContains ql k) && htp then (false, true)
        else if htp && decide ((pySplit ql).length ≤ 5) then (true, false)
        else (false, false)
      else (false, false)
    let co2 := lam ≠ "" && htp && hasTimeMatch lam &&
      (hasTimeMatch ql &&
        ["not", "said", "wrong", "should", "meant", "i said"].any
          (fun k => strContains ql k))
    let co3 := lam ≠ "" && (strContains lam "reminder" || strContains lam "set") &&
      hasTimeMatch ql &&
      ["not", "said", "wrong", "i said"].any (fun k => strContains ql k)
    let fu4 := lum ≠ "" && reminder_phrases.any (fun p => strContains lum p) &&
      htp && decide ((pySplit ql).length ≤ 5)
    (fuco1.1 || fu4, fuco1.2 || co2 || co3)

def reminderGuard (ql : String) (chat_history : List ChatMsg) : Bool :=
  hasReminderIntent ql || (reminderFollowCorrect ql chat_history).1 ||
    (reminderFollowCorrect ql chat_history).2

def close_tabs_phrases : List String :=
  ["close tabs", "close the tabs", "close all other tabs",
   "close unrelated tabs", "close tabs not relevant", "keep only the tabs"]

def hasCloseTabsIntent (ql : String) : Bool :=
  close_tabs_phrases.any (fun p => strContains ql p) && strContains ql "tab"

def hasExplicitAnalysisRequest (ql : String) : Bool :=
  strContains ql "analyze" || strContains ql "analysis" ||
    strContains ql "tab report" || strContains ql "tab summary" ||
    (["summarize", "summary", "compare", "report"].any (fun k => strContains ql k) &&
      ["tab", "tabs", "my tabs", "all tabs"].any (fun c => strContains ql c)) ||
    hasCloseTabsIntent ql

def clarifyVetoWords : List String := ["remind", "alert", "set", "price", "how many"]

/-- The short-and-unclear test of the clarification branch. -/
def clarifyGuard (ql : String) : Bool :=
  decide ((pySplit ql).length ≤ 3) &&
    !(clarifyVetoWords.any (fun w => strContains ql w))

/-- The fixed clarification prompt of the short-query branch. -/
def clarifyReply : String :=
  "I\x27m not sure what you\x27re asking. Could you please clarify? You can:\n- Ask questions about your tabs\n- Set reminders (e.g., \x27remind me at 9 PM\x27)\n- Request tab analysis (e.g., \x27analyze my tabs\x27)\n- Ask about specific information in your tabs"

def clarifyDict : SAReply :=
  { reply := some clarifyReply, mode := some "single", chosen_tab_id := some none,
    suggested_close_tab_ids := some [], workspace_summary := some [],
    alerts := some [], price_info := some [], should_ask_cleanup := some false }

/-- The last-resort rephrase prompt. -/
def rephraseReply : String :=
  "I\x27m not sure what you\x27re asking. Could you please rephrase your question? You can:\n- Ask specific questions about your tabs\n- Set reminders (e.g., \x27remind me at 9 PM\x27)\n- Request tab analysis (e.g., \x27analyze my tabs\x27)\n- Ask \x27how many tabs are open\x27"

def rephraseDict : SAReply :=
  { reply := some rephraseReply, mode := some "single", chosen_tab_id := some none,
    suggested_close_tab_ids := some [], workspace_summary := some [],
    alerts := some [], price_info := some [], should_ask_cleanup := some false }

/-- `SimpleAgent.process(query, tabs, chat_history)`: the routing chain of
the source, in order.  Two structural notes: `_set_reminder` always returns
a non-empty (truthy) dict, so the source's post-call `if result:` is always
taken and the in-`process` reminder-failure dict is unreachable; and the
late `if is_specific_question:` arm is dead (the earlier arm already
returned in that case) but is kept to mirror the source. -/
def process (llm : Oracle) (query : String) (tabs : List Tab)
    (chat_history : List ChatMsg := []) : SAReply :=
  let query_lower := pyStrip (pyLower query)
  if countTabsGuard query_lower then count_tabs llm query tabs
  else
    let is_specific_question := isSpecificQuestion query query_lower
    if checkAllTabsGuard query_lower then
      answer_question_all_tabs llm query tabs chat_history
    else if howManyGuard query_lower then
      answer_question_all_tabs llm query tabs chat_history
    else if is_specific_question then
      match find_relevant_tab query tabs with
      | some relevant_tab => answer_question llm query relevant_tab tabs chat_history
      | none => answer_question_all_tabs llm query tabs chat_history
    else if priceAlertGuard query_lower chat_history tabs then
      set_price_alert llm query tabs
    else if reminderGuard query_lower chat_history then
      set_reminder llm query chat_history
    else if !(hasExplicitAnalysisRequest query_lower) && !is_specific_question &&
        clarifyGuard query_lower then
      clarifyDict
    else if hasCloseTabsIntent query_lower then
      close_irrelevant_tabs query tabs
    else if hasExplicitAnalysisRequest query_lower then
      analyze_tabs llm query tabs
    else if is_specific_question then
      match find_relevant_tab query tabs with
      | some relevant_tab => answer_question llm query relevant_tab tabs chat_history
      | none => answer_question_all_tabs llm query tabs chat_history
    else rephraseDict

end SimpleAgent

theorem count_tabs_mode (llm : Oracle) (query : String) (tabs : List SimpleAgent.Tab) :
    (SimpleAgent.count_tabs llm query tabs).mode = some "analysis" := by
  unfold SimpleAgent.count_tabs
  rcases tabs with _ | ⟨t0, ts⟩ <;> rfl

theorem answer_question_all_tabs_mode (llm : Oracle) (query : String)
    (tabs : List SimpleAgent.Tab) (hist : List SimpleAgent.ChatMsg) :
    (SimpleAgent.answer_question_all_tabs llm query tabs hist).mode = some "single" := by
  simp only [SimpleAgent.answer_question_all_tabs]
  repeat' split
  all_goals rfl

theorem answer_question_mode (llm : Oracle) (query : String) (tab : SimpleAgent.Tab)
    (tabs : List SimpleAgent.Tab) (hist : List SimpleAgent.ChatMsg) :
    (SimpleAgent.answer_question llm query tab tabs hist).mode = some "single" := by
  simp only [SimpleAgent.answer_question]
  repeat' split
  all_goals rfl

theorem set_price_alert_mode (llm : Oracle) (query : String)
    (tabs : List SimpleAgent.Tab) :
    (SimpleAgent.set_price_alert llm query tabs).mode = some "price_alert" := by
  simp only [SimpleAgent.set_price_alert]
  repeat' split
  all_goals rfl

theorem set_reminder_mode (llm : Oracle) (query : String)
    (hist : List SimpleAgent.ChatMsg) :
    (SimpleAgent.set_reminder llm query hist).mode = some "reminder" := by
  simp only [SimpleAgent.set_reminder]
  repeat' split
  all_goals rfl

theorem close_irrelevant_tabs_mode (query : String) (tabs : List SimpleAgent.Tab) :
    (SimpleAgent.close_irrelevant_tabs query tabs).mode = some "single" := by
  simp only [SimpleAgent.close_irrelevant_tabs]
  repeat' split
  all_goals rfl

theorem analyze_tabs_mode (llm : Oracle) (query : String) (tabs : List SimpleAgent.Tab) :
    (SimpleAgent.analyze_tabs llm query tabs).mode = some "analysis" := by
  simp only [SimpleAgent.analyze_tabs]
  repeat' split
  all_goals rfl


theorem fp_count_tabs (llm : Oracle) (query : String) (tabs : List SimpleAgent.Tab) :
    SimpleAgent.fullyPopulated (SimpleAgent.count_tabs llm query tabs) := by
  unfold SimpleAgent.count_tabs
  rcases tabs with _ | ⟨t0, ts⟩ <;> exact ⟨rfl, rfl, rfl, rfl, rfl, rfl, rfl, rfl⟩

theorem fp_answer_question_all_tabs (llm : Oracle) (query : String)
    (tabs : List SimpleAgent.Tab) (hist : List SimpleAgent.ChatMsg) :
    SimpleAgent.fullyPopulated (SimpleAgent.answer_question_all_tabs llm query tabs hist) := by
  simp only [SimpleAgent.answer_question_all_tabs]
  repeat' split
  all_goals exact ⟨rfl, rfl, rfl, rfl, rfl, rfl, rfl, rfl⟩

theorem fp_answer_question (llm : Oracle) (query : String) (tab : SimpleAgent.Tab)
    (tabs : List SimpleAgent.Tab) (hist : List SimpleAgent.ChatMsg) :
    SimpleAgent.fullyPopulated (SimpleAgent.answer_question llm query tab tabs hist) := by
  simp only [SimpleAgent.answer_question]
  repeat' split
  all_goals exact ⟨rfl, rfl, rfl, rfl, rfl, rfl, rfl, rfl⟩

theorem fp_set_reminder (llm : Oracle) (query : String)
    (hist : List SimpleAgent.ChatMsg) :
    SimpleAgent.fullyPopulated (SimpleAgent.set_reminder llm query hist) := by
  simp only [SimpleAgent.set_reminder]
  repeat' split
  all_goals exact ⟨rfl, rfl, rfl, rfl, rfl, rfl, rfl, rfl⟩

theorem fp_close_irrelevant_tabs (query : String) (tabs : List SimpleAgent.Tab) :
    SimpleAgent.fullyPopulated (SimpleAgent.close_irrelevant_tabs query tabs) := by
  simp only [SimpleAgent.close_irrelevant_tabs]
  repeat' split
  all_goals exact ⟨rfl, rfl, rfl, rfl, rfl, rfl, rfl, rfl⟩

theorem fp_analyze_tabs (llm : Oracle) (query : String) (tabs : List SimpleAgent.Tab) :
    SimpleAgent.fullyPopulated (SimpleAgent.analyze_tabs llm query tabs) := by
  simp only [SimpleAgent.analyze_tabs]
  repeat' split
  all_goals exact ⟨rfl, rfl, rfl, rfl, rfl, rfl, rfl, rfl⟩

theorem fp_clarifyDict : SimpleAgent.fullyPopulated SimpleAgent.clarifyDict :=
  ⟨rfl, rfl, rfl, rfl, rfl, rfl, rfl, rfl⟩

theorem fp_rephraseDict : SimpleAgent.fullyPopulated SimpleAgent.rephraseDict :=
  ⟨rfl, rfl, rfl, rfl, rfl, rfl, rfl, rfl⟩

/-- `_set_price_alert` either populates all eight fields (the success path)
or returns the three-key dicts of its no-product and extraction-error
paths. -/
theorem set_price_alert_shape (llm : Oracle) (query : String)
    (tabs : List SimpleAgent.Tab) :
    SimpleAgent.fullyPopulated (SimpleAgent.set_price_alert llm query tabs) ∨
    ((SimpleAgent.set_price_alert llm query tabs).reply.isSome = true ∧
     (SimpleAgent.set_price_alert llm query tabs).chosen_tab_id.isSome = true ∧
     (SimpleAgent.set_price_alert llm query tabs).suggested_close_tab_ids = none ∧
     (SimpleAgent.set_price_alert llm query tabs).workspace_summary = none ∧
     (SimpleAgent.set_price_alert llm query tabs).alerts = none ∧
     (SimpleAgent.set_price_alert llm query tabs).price_info = none ∧
     (SimpleAgent.set_price_alert llm query tabs).should_ask_cleanup = none) := by
  simp only [SimpleAgent.set_price_alert]
  repeat' split
  all_goals first
    | exact Or.inl ⟨rfl, rfl, rfl, rfl, rfl, rfl, rfl, rfl⟩
    | exact Or.inr ⟨rfl, rfl, rfl, rfl, rfl, rfl, rfl⟩

/-- C6: evaluation of the code at the claim's input.  The query
`"close all tabs irrelevant to cooking"` contains the phrase `"all tabs"`,
so `process` routes it to `_answer_question_all_tabs` — whose every path
returns mode `"single"` — and never reaches the close-tabs helper (whose
own docstring example `"close all tabs irrelevant to kaggle and neetcode"`
is intercepted the same way, and which itself also labels its reply
`"single"`); no `"cleanup"` mode string exists in the module. -/
theorem claim_C6_close_all_tabs_mode_single (llm : Oracle)
    (tabs : List SimpleAgent.Tab) (hist : List SimpleAgent.ChatMsg) :
    (SimpleAgent.process llm "close all tabs irrelevant to cooking" tabs hist).mode
      = some "single" := by
  simp only [SimpleAgent.process]
  rw [if_neg (by decide), if_pos (by decide)]
  exact answer_question_all_tabs_mode llm "close all tabs irrelevant to cooking" tabs hist

set_option maxRecDepth 100000 in
/-- C7, counterexample to the claim as stated: for the query `"ok"` (one
word, no actionable verb, empty chat history) the code does return the
fixed clarification prompt, but the Reply's mode field is `"single"`, not
`"clarify"` (no `"clarify"` mode value exists in the module). -/
theorem claim_C7_counterexample :
    (SimpleAgent.process errOracle "ok" [] []).mode = some "single" ∧
    (SimpleAgent.process errOracle "ok" [] []).reply = some SimpleAgent.clarifyReply := by
  constructor
  · decide
  · decide

/-- C7 (amended): a query that matches none of the earlier intent rules, has
at most 3 words and no actionable verb gets the fixed clarification prompt
listing the supported request types — with mode `"single"` rather than
`"clarify"`. -/
theorem claim_C7_clarify_amended (llm : Oracle) (query : String)
    (tabs : List SimpleAgent.Tab) (hist : List SimpleAgent.ChatMsg)
    (h1 : SimpleAgent.countTabsGuard (pyStrip (pyLower query)) = false)
    (h2 : SimpleAgent.isSpecificQuestion query (pyStrip (pyLower query)) = false)
    (h3 : SimpleAgent.checkAllTabsGuard (pyStrip (pyLower query)) = false)
    (h4 : SimpleAgent.howManyGuard (pyStrip (pyLower query)) = false)
    (h5 : SimpleAgent.priceAlertGuard (pyStrip (pyLower query)) hist tabs = false)
    (h6 : SimpleAgent.reminderGuard (pyStrip (pyLower query)) hist = false)
    (h7 : SimpleAgent.hasExplicitAnalysisRequest (pyStrip (pyLower query)) = false)
    (h8 : SimpleAgent.clarifyGuard (pyStrip (pyLower query)) = true) :
    SimpleAgent.process llm query tabs hist = SimpleAgent.clarifyDict := by
  simp only [SimpleAgent.process]
  rw [if_neg (by simp [h1]), if_neg (by simp [h3]), if_neg (by simp [h4]),
    if_neg (by simp [h2]), if_neg (by simp [h5]), if_neg (by simp [h6]),
    if_pos (by simp [h7, h2, h8])]

set_option maxRecDepth 100000 in
/-- Witness for C7 (amended) at the claim's own input `"ok"`. -/
theorem claim_C7_clarify_amended_witness :
    SimpleAgent.process errOracle "ok" [] [] = SimpleAgent.clarifyDict :=
  claim_C7_clarify_amended errOracle "ok" [] [] (by decide) (by decide)
    (by decide) (by decide) (by decide) (by decide) (by decide) (by decide)

/-- Mode `"price_alert"` is only produced by the price-alert branch, whose
guard is the four-way conjunction. -/
theorem process_price_alert_guard (llm : Oracle) (query : String)
    (tabs : List SimpleAgent.Tab) (hist : List SimpleAgent.ChatMsg)
    (h : (SimpleAgent.process llm query tabs hist).mode = some "price_alert") :
    SimpleAgent.priceAlertGuard (pyStrip (pyLower query)) hist tabs = true := by
  simp only [SimpleAgent.process] at h
  by_cases h1 : SimpleAgent.countTabsGuard (pyStrip (pyLower query)) = true
  · rw [if_pos h1, count_tabs_mode] at h
    exact absurd h (by decide)
  rw [if_neg h1] at h
  by_cases h2 : SimpleAgent.checkAllTabsGuard (pyStrip (pyLower query)) = true
  · rw [if_pos h2, answer_question_all_tabs_mode] at h
    exact absurd h (by decide)
  rw [if_neg h2] at h
  by_cases h3 : SimpleAgent.howManyGuard (pyStrip (pyLower query)) = true
  · rw [if_pos h3, answer_question_all_tabs_mode] at h
    exact absurd h (by decide)
  rw [if_neg h3] at h
  by_cases h4 : SimpleAgent.isSpecificQuestion query (pyStrip (pyLower query)) = true
  · rw [if_pos h4] at h
    cases hf : SimpleAgent.find_relevant_tab query tabs with
    | some rt =>
      simp only [hf, answer_question_mode] at h
      exact absurd h (by decide)
    | none =>
      simp only [hf, answer_question_all_tabs_mode] at h
      exact absurd h (by decide)
  rw [if_neg h4] at h
  by_cases h5 : SimpleAgent.priceAlertGuard (pyStrip (pyLower query)) hist tabs = true
  · exact h5
  rw [if_neg h5] at h
  by_cases h6 : SimpleAgent.reminderGuard (pyStrip (pyLower query)) hist = true
  · rw [if_pos h6, set_reminder_mode] at h
    exact absurd h (by decide)
  rw [if_neg h6] at h
  by_cases h7 : (!SimpleAgent.hasExplicitAnalysisRequest (pyStrip (pyLower query)) &&
      !SimpleAgent.isSpecificQuestion query (pyStrip (pyLower query)) &&
      SimpleAgent.clarifyGuard (pyStrip (pyLower query))) = true
  · rw [if_pos h7] at h
    exact absurd h (by decide)
  rw [if_neg h7] at h
  by_cases h8 : SimpleAgent.hasCloseTabsIntent (pyStrip (pyLower query)) = true
  · rw [if_pos h8, close_irrelevant_tabs_mode] at h
    exact absurd h (by decide)
  rw [if_neg h8] at h
  by_cases h9 : SimpleAgent.hasExplicitAnalysisRequest (pyStrip (pyLower query)) = true
  · rw [if_pos h9, analyze_tabs_mode] at h
    exact absurd h (by decide)
  rw [if_neg h9, if_neg h4] at h
  exact absurd h (by decide)

/-- C8: the Reply carries mode `"price_alert"` only when all four conditions
hold simultaneously: price context in the query or recent chat, an
alert-request verb in the query, a drop-word or a `price` mention, and a tab
with a truthy positive price. -/
theorem claim_C8_price_alert_conditions (llm : Oracle) (query : String)
    (tabs : List SimpleAgent.Tab) (hist : List SimpleAgent.ChatMsg)
    (h : (SimpleAgent.process llm query tabs hist).mode = some "price_alert") :
    SimpleAgent.hasPriceContext (pyStrip (pyLower query)) hist = true ∧
    SimpleAgent.hasAlertRequest (pyStrip (pyLower query)) = true ∧
    (SimpleAgent.hasDropMention (pyStrip (pyLower query)) hist ||
      strContains (pyStrip (pyLower query)) "price" ||
      strContains (SimpleAgent.recentChatOf hist) "price") = true ∧
    tabs.any SimpleAgent.priced = true := by
  have hg := process_price_alert_guard llm query tabs hist h
  unfold SimpleAgent.priceAlertGuard at hg
  simp only [Bool.and_eq_true] at hg
  exact ⟨hg.1.1.1, hg.1.1.2, hg.1.2, hg.2⟩

set_option maxRecDepth 100000 in
/-- Witness for C8: a concrete request that does produce mode
`"price_alert"`, together with the four conditions at that input. -/
theorem claim_C8_price_alert_conditions_witness :
    (SimpleAgent.process errOracle "notify me if the price drops"
      [{ id := some 7, title := "Widget", price := some 100 }] []).mode
      = some "price_alert" ∧
    SimpleAgent.hasPriceContext
      (pyStrip (pyLower "notify me if the price drops")) [] = true ∧
    SimpleAgent.hasAlertRequest
      (pyStrip (pyLower "notify me if the price drops")) = true ∧
    (SimpleAgent.hasDropMention (pyStrip (pyLower "notify me if the price drops")) [] ||
      strContains (pyStrip (pyLower "notify me if the price drops")) "price" ||
      strContains (SimpleAgent.recentChatOf []) "price") = true ∧
    ([{ id := some 7, title := "Widget",
        price := some 100 }] : List SimpleAgent.Tab).any SimpleAgent.priced = true :=
  have h : (SimpleAgent.process errOracle "notify me if the price drops"
      [{ id := some 7, title := "Widget", price := some 100 }] []).mode
      = some "price_alert" := by decide
  ⟨h, claim_C8_price_alert_conditions errOracle "notify me if the price drops"
    [{ id := some 7, title := "Widget", price := some 100 }] [] h⟩

set_option maxRecDepth 100000 in
/-- C2, counterexample to the claim as stated: on a price-alert request
whose threshold-extraction call fails, `process` returns
`_set_price_alert`'s error dict, which carries only `reply`, `mode` and
`chosen_tab_id` — the other five contract keys are absent. -/
theorem claim_C2_counterexample :
    (SimpleAgent.process errOracle "notify me if the price drops"
      [{ id := some 7, title := "Widget", price := some 100 }] []).suggested_close_tab_ids = none ∧
    (SimpleAgent.process errOracle "notify me if the price drops"
      [{ id := some 7, title := "Widget", price := some 100 }] []).workspace_summary = none ∧
    (SimpleAgent.process errOracle "notify me if the price drops"
      [{ id := some 7, title := "Widget", price := some 100 }] []).alerts = none ∧
    (SimpleAgent.process errOracle "notify me if the price drops"
      [{ id := some 7, title := "Widget", price := some 100 }] []).price_info = none ∧
    (SimpleAgent.process errOracle "notify me if the price drops"
      [{ id := some 7, title := "Widget", price := some 100 }] []).should_ask_cleanup = none := by
  refine ⟨?_, ?_, ?_, ?_, ?_⟩ <;> decide

/-- C2 (amended): every code path of `process` populates all eight Reply
fields, except `_set_price_alert`'s no-product and extraction-error paths,
which populate only `reply`, `mode` (= `"price_alert"`) and
`chosen_tab_id`. -/
theorem claim_C2_amended_population (llm : Oracle) (query : String)
    (tabs : List SimpleAgent.Tab) (hist : List SimpleAgent.ChatMsg) :
    SimpleAgent.fullyPopulated (SimpleAgent.process llm query tabs hist) ∨
    ((SimpleAgent.process llm query tabs hist).mode = some "price_alert" ∧
     (SimpleAgent.process llm query tabs hist).reply.isSome = true ∧
     (SimpleAgent.process llm query tabs hist).chosen_tab_id.isSome = true ∧
     (SimpleAgent.process llm query tabs hist).suggested_close_tab_ids = none ∧
     (SimpleAgent.process llm query tabs hist).workspace_summary = none ∧
     (SimpleAgent.process llm query tabs hist).alerts = none ∧
     (SimpleAgent.process llm query tabs hist).price_info = none ∧
     (SimpleAgent.process llm query tabs hist).should_ask_cleanup = none) := by
  simp only [SimpleAgent.process]
  by_cases h1 : SimpleAgent.countTabsGuard (pyStrip (pyLower query)) = true
  · rw [if_pos h1]
    exact Or.inl (fp_count_tabs llm query tabs)
  rw [if_neg h1]
  by_cases h2 : SimpleAgent.checkAllTabsGuard (pyStrip (pyLower query)) = true
  · rw [if_pos h2]
    exact Or.inl (fp_answer_question_all_tabs llm query tabs hist)
  rw [if_neg h2]
  by_cases h3 : SimpleAgent.howManyGuard (pyStrip (pyLower query)) = true
  · rw [if_pos h3]
    exact Or.inl (fp_answer_question_all_tabs llm query tabs hist)
  rw [if_neg h3]
  by_cases h4 : SimpleAgent.isSpecificQuestion query (pyStrip (pyLower query)) = true
  · rw [if_pos h4]
    cases hf : SimpleAgent.find_relevant_tab query tabs with
    | some rt => exact Or.inl (fp_answer_question llm query rt tabs hist)
    | none => exact Or.inl (fp_answer_question_all_tabs llm query tabs hist)
  rw [if_neg h4]
  by_cases h5 : SimpleAgent.priceAlertGuard (pyStrip (pyLower query)) hist tabs = true
  · rw [if_pos h5]
    rcases set_price_alert_shape llm query tabs with hfp | hsh
    · exact Or.inl hfp
    · exact Or.inr ⟨set_price_alert_mode llm query tabs, hsh⟩
  rw [if_neg h5]
  by_cases h6 : SimpleAgent.reminderGuard (pyStrip (pyLower query)) hist = true
  · rw [if_pos h6]
    exact Or.inl (fp_set_reminder llm query hist)
  rw [if_neg h6]
  by_cases h7 : (!SimpleAgent.hasExplicitAnalysisRequest (pyStrip (pyLower query)) &&
      !SimpleAgent.isSpecificQuestion query (pyStrip (pyLower query)) &&
      SimpleAgent.clarifyGuard (pyStrip (pyLower query))) = true
  · rw [if_pos h7]
    exact Or.inl fp_clarifyDict
  rw [if_neg h7]
  by_cases h8 : SimpleAgent.hasCloseTabsIntent (pyStrip (pyLower query)) = true
  · rw [if_pos h8]
    exact Or.inl (fp_close_irrelevant_tabs query tabs)
  rw [if_neg h8]
  by_cases h9 : SimpleAgent.hasExplicitAnalysisRequest (pyStrip (pyLower query)) = true
  · rw [if_pos h9]
    exact Or.inl (fp_analyze_tabs llm query tabs)
  rw [if_neg h9, if_neg h4]
  exact Or.inl fp_rephraseDict
